import Mathlib

/-!
Formal model of the two Unreal Engine bridge components in the
`unity-sim-packs` repository: `USteamAIBridge`
(packages/ai/examples/unreal/Bridge.cpp) and `UDataVisualizationBridge`
(packages/data-visualization/examples/unreal/Bridge.cpp).

Machine floating-point quantities (world time, chart values, vector
components) are modelled as rationals; `printf`-style fixed-point
formatting (`%.2f`, `%f`) is modelled exactly, with round-half-away-from-zero
on the idealized value.  External subsystems (the JavaScript engine, the
file system, the wall clock) are parameters of the model.
-/

/-- Character codes that the repository's string literals use and that we
keep symbolic: left brace, right brace, double quote, backslash. -/
def lbrace : Char := Char.ofNat 123

def rbrace : Char := Char.ofNat 125

def dquote : Char := Char.ofNat 34

def bslash : Char := Char.ofNat 92

/-- Numeric value of a decimal digit character. -/
def charVal (c : Char) : ℕ := c.toNat - 48

/-- Decimal digit test (ASCII 48..57). -/
def isDigitChar (c : Char) : Bool := decide (48 ≤ c.toNat) && decide (c.toNat ≤ 57)

/-- Big-endian decimal digit characters of a natural number, as `printf`
prints one (no leading zeros, `0` prints as a single digit). -/
def natDigitsBE (n : ℕ) : List Char :=
  if n = 0 then ['0'] else ((Nat.digits 10 n).reverse.map Nat.digitChar)

/-- Value of a big-endian list of decimal digit characters. -/
def digitsToNat (cs : List Char) : ℕ := cs.foldl (fun a c => a * 10 + charVal c) 0

/-- Exactly `k` decimal digit characters of `r` (most significant first),
as `printf` prints the fractional part of a fixed-point number. -/
def padDigits : ℕ → ℕ → List Char
  | 0, _ => []
  | k + 1, r => padDigits k (r / 10) ++ [Nat.digitChar (r % 10)]

/-- Scaled magnitude used by fixed-point formatting: `|q| * 10^d` rounded
to the nearest integer, half away from zero. -/
def scaledAbs (d : ℕ) (q : ℚ) : ℕ := (⌊|q| * (10 : ℚ) ^ d + 1 / 2⌋).toNat

/-- Character sequence printed by `printf("%.<d>f", q)` (idealized over ℚ):
optional minus sign, integer part, point, exactly `d` fractional digits. -/
def fmtFixedChars (d : ℕ) (q : ℚ) : List Char :=
  (if q < 0 then ['-'] else []) ++
    natDigitsBE (scaledAbs d q / 10 ^ d) ++ '.' :: padDigits d (scaledAbs d q % 10 ^ d)

/-- String printed by `printf("%.<d>f", q)`. -/
def fmtFixed (d : ℕ) (q : ℚ) : String := String.mk (fmtFixedChars d q)

/-- String printed by `printf("%lld", i)`. -/
def intToDecString (i : ℤ) : String :=
  String.mk ((if i < 0 then ['-'] else []) ++ natDigitsBE i.natAbs)

/-- Rational value denoted by the characters `fmtFixedChars d q` prints. -/
def fmtFixedVal (d : ℕ) (q : ℚ) : ℚ :=
  if q < 0 then -((scaledAbs d q : ℚ) / 10 ^ d) else (scaledAbs d q : ℚ) / 10 ^ d

/-- Case-sensitive test that `needle` occurs at the start of `hay`. -/
def startsWithChars : List Char → List Char → Bool
  | [], _ => true
  | _ :: _, [] => false
  | a :: as, b :: bs => (a == b) && startsWithChars as bs

/-- Case-sensitive substring occurrence test on character lists. -/
def occursIn (needle : List Char) : List Char → Bool
  | [] => startsWithChars needle []
  | c :: cs => startsWithChars needle (c :: cs) || occursIn needle cs

/-- Model of `FString::Contains` with its default `ESearchCase::IgnoreCase`:
case-insensitive substring search (per-character ASCII lowering). -/
def fstrContains (hay needle : String) : Bool :=
  occursIn (needle.data.map Char.toLower) (hay.data.map Char.toLower)

/-! ### JSON values and a model of `FJsonSerializer` -/

/-- JSON value tree, the model of Unreal's `FJsonValue` / `FJsonObject`. -/
inductive JValue where
  | jnull : JValue
  | jbool : Bool → JValue
  | jnum : ℚ → JValue
  | jstr : String → JValue
  | jarr : List JValue → JValue
  | jobj : List (String × JValue) → JValue

/-- JSON whitespace test. -/
def isWsChar (c : Char) : Bool := (c == ' ') || (c == '\t') || (c == '\n') || (c == '\r')

/-- Drop leading JSON whitespace. -/
def skipWs : List Char → List Char
  | [] => []
  | c :: rest => if isWsChar c then skipWs rest else c :: rest

/-- Split a character list into its longest digit prefix and the rest. -/
def spanDigits : List Char → List Char × List Char
  | [] => ([], [])
  | c :: cs =>
    if isDigitChar c then
      let p := spanDigits cs
      (c :: p.1, p.2)
    else ([], c :: cs)

/-- Translate a JSON string escape character. -/
def unescapeChar (e : Char) : Char :=
  if e = 'n' then '\n' else if e = 't' then '\t' else if e = 'r' then '\r' else e

/-- Parse the body of a JSON string after the opening quote; returns the
content and the remainder after the closing quote. -/
def parseStrAux : List Char → Option (List Char × List Char)
  | [] => none
  | c :: cs =>
    if c = dquote then some ([], cs)
    else if c = bslash then
      match cs with
      | [] => none
      | e :: cs2 => (parseStrAux cs2).map (fun p => (unescapeChar e :: p.1, p.2))
    else (parseStrAux cs).map (fun p => (c :: p.1, p.2))

/-- Detach a leading minus sign. -/
def splitNeg (cs : List Char) : Bool × List Char :=
  match cs with
  | [] => (false, [])
  | c :: rest => if c = '-' then (true, rest) else (false, cs)

/-- Parse an optional fractional part `.digits`; value of the fraction and
the remainder.  A point with no following digit is a parse error. -/
def parseFrac (cs : List Char) : Option (ℚ × List Char) :=
  match cs with
  | [] => some (0, [])
  | c :: rest =>
    if c = '.' then
      match spanDigits rest with
      | ([], _) => none
      | (fds, cs2) => some ((digitsToNat fds : ℚ) / (10 : ℚ) ^ fds.length, cs2)
    else some (0, c :: rest)

/-- Parse the sign and digits after an exponent marker. -/
def parseExpTail (cs : List Char) : Option ((Bool × ℕ) × List Char) :=
  let p :=
    match cs with
    | [] => (false, ([] : List Char))
    | c :: rest => if c = '-' then (true, rest) else if c = '+' then (false, rest) else (false, c :: rest)
  match spanDigits p.2 with
  | ([], _) => none
  | (eds, cs2) => some ((p.1, digitsToNat eds), cs2)

/-- Parse an optional exponent part `e±digits`. -/
def parseExp (cs : List Char) : Option ((Bool × ℕ) × List Char) :=
  match cs with
  | [] => some ((false, 0), [])
  | c :: rest =>
    if c = 'e' ∨ c = 'E' then parseExpTail rest else some ((false, 0), c :: rest)

/-- Apply a parsed exponent to a mantissa. -/
def applyExp (v : ℚ) (e : Bool × ℕ) : ℚ := if e.1 then v / 10 ^ e.2 else v * 10 ^ e.2

/-- Parse a JSON number. -/
def parseNumber (cs : List Char) : Option (ℚ × List Char) :=
  let p := splitNeg cs
  match spanDigits p.2 with
  | ([], _) => none
  | (ds, cs2) =>
    match parseFrac cs2 with
    | none => none
    | some (fv, cs3) =>
      match parseExp cs3 with
      | none => none
      | some (ex, cs4) =>
        let v := applyExp ((digitsToNat ds : ℚ) + fv) ex
        some (if p.1 then -v else v, cs4)

mutual

/-- Parse a JSON value (fuel-bounded recursive descent). -/
def parseVal : ℕ → List Char → Option (JValue × List Char)
  | 0, _ => none
  | fuel + 1, cs =>
    match skipWs cs with
    | [] => none
    | c :: rest =>
      if c = lbrace then parseObjBody fuel (skipWs rest)
      else if c = '[' then parseArrBody fuel (skipWs rest)
      else if c = dquote then
        match parseStrAux rest with
        | none => none
        | some (content, r) => some (JValue.jstr (String.mk content), r)
      else if c = 't' then
        match rest with
        | 'r' :: 'u' :: 'e' :: r => some (JValue.jbool true, r)
        | _ => none
      else if c = 'f' then
        match rest with
        | 'a' :: 'l' :: 's' :: 'e' :: r => some (JValue.jbool false, r)
        | _ => none
      else if c = 'n' then
        match rest with
        | 'u' :: 'l' :: 'l' :: r => some (JValue.jnull, r)
        | _ => none
      else
        match parseNumber (c :: rest) with
        | none => none
        | some (q, r) => some (JValue.jnum q, r)

/-- Parse the members of a JSON object after the opening brace. -/
def parseObjBody : ℕ → List Char → Option (JValue × List Char)
  | 0, _ => none
  | fuel + 1, cs =>
    match cs with
    | [] => none
    | c :: rest =>
      if c = rbrace then some (JValue.jobj [], rest)
      else if c = dquote then
        match parseStrAux rest with
        | none => none
        | some (key, r1) =>
          match skipWs r1 with
          | [] => none
          | c1 :: r2 =>
            if c1 = ':' then
              match parseVal fuel r2 with
              | none => none
              | some (v, r3) =>
                match skipWs r3 with
                | [] => none
                | c2 :: r4 =>
                  if c2 = ',' then
                    match parseObjBody fuel (skipWs r4) with
                    | some (JValue.jobj fields, r5) =>
                      some (JValue.jobj ((String.mk key, v) :: fields), r5)
                    | _ => none
                  else if c2 = rbrace then some (JValue.jobj [(String.mk key, v)], r4)
                  else none
            else none
      else none

/-- Parse the elements of a JSON array after the opening bracket. -/
def parseArrBody : ℕ → List Char → Option (JValue × List Char)
  | 0, _ => none
  | fuel + 1, cs =>
    match cs with
    | [] => none
    | c :: rest =>
      if c = ']' then some (JValue.jarr [], rest)
      else
        match parseVal fuel (c :: rest) with
        | none => none
        | some (v, r1) =>
          match skipWs r1 with
          | [] => none
          | c2 :: r2 =>
            if c2 = ',' then
              match parseArrBody fuel (skipWs r2) with
              | some (JValue.jarr xs, r3) => some (JValue.jarr (v :: xs), r3)
              | _ => none
            else if c2 = ']' then some (JValue.jarr [v], r2)
            else none

end

/-- Model of `FJsonSerializer::Deserialize`: parse one JSON value from the
string (fuel covers any nesting the input can express). -/
def deserializeJson (s : String) : Option JValue :=
  match parseVal (2 * s.length + 8) s.data with
  | none => none
  | some (v, _) => some v

/-- Deserialization into a `TSharedPtr<FJsonObject>` succeeds only when the
top-level JSON value is an object. -/
def deserializeObject (s : String) : Option (List (String × JValue)) :=
  match deserializeJson s with
  | some (JValue.jobj fields) => some fields
  | _ => none

/-- Model of `FJsonObject::GetNumberField`: the named field's numeric value,
`0` when the field is missing or not a number. -/
def getNumberField (fields : List (String × JValue)) (name : String) : ℚ :=
  match fields.lookup name with
  | some (JValue.jnum q) => q
  | _ => 0

/-- Model of `FVector` with idealized (rational) components. -/
structure Vec3 where
  x : ℚ
  y : ℚ
  z : ℚ
deriving DecidableEq

/-- Severity of a log line (`STEAM_AI_LOG` / `STEAM_AI_WARN` / `STEAM_AI_ERROR`,
`UE_LOG` verbosity). -/
inductive LogLevel where
  | info : LogLevel
  | warn : LogLevel
  | error : LogLevel
deriving DecidableEq

/-- One emitted log line. -/
structure LogEntry where
  level : LogLevel
  msg : String
deriving DecidableEq

/-- Model of `TMap::Add` on an insertion-ordered map: replace the value in
place when the key exists, append a new pair otherwise. -/
def tmapAdd {β : Type _} : List (String × β) → String → β → List (String × β)
  | [], k, v => [(k, v)]
  | (k0, v0) :: rest, k, v => if k0 = k then (k, v) :: rest else (k0, v0) :: tmapAdd rest k v

/-- Model of `TMap::Contains`. -/
def tmapContains {β : Type _} (m : List (String × β)) (k : String) : Bool :=
  (m.lookup k).isSome

/-- Model of `TMap::Remove`. -/
def tmapRemove {β : Type _} (m : List (String × β)) (k : String) : List (String × β) :=
  m.filter (fun p => !(p.1 == k))

/-- Keys in order of first occurrence, skipping those already `seen`; this
is the key order an insertion-ordered map built by repeated `Add` has. -/
def dedupFirst (seen : List String) : List String → List String
  | [] => []
  | k :: ks => if k ∈ seen then dedupFirst seen ks else k :: dedupFirst (k :: seen) ks

namespace USteamAIBridge

/-- Mirror of `FSteamAIConfig`. -/
structure FSteamAIConfig where
  bEnableDebugLogging : Bool
  JavaScriptFilePath : String
  bUseV8Engine : Bool
  GarbageCollectionInterval : ℚ
  MaxMemoryUsageMB : ℤ
  bEnablePerformanceMonitoring : Bool

/-- Mirror of `FSteamAIPerformanceStats`. -/
structure FSteamAIPerformanceStats where
  ScriptExecutionTimeMs : ℚ
  TreeExecutionTimeMs : ℚ
  ActiveAgents : ℤ
  ActiveTrees : ℤ
  MemoryUsageMB : ℚ
  ScriptCallsPerSecond : ℤ

/-- A dynamic delegate taking two strings and returning a bool; `none` is an
unbound delegate (`IsBound()` false). -/
abbrev FActionDelegate : Type := Option (String → String → Bool)

/-- Condition delegates share the action delegate signature. -/
abbrev FConditionDelegate : Type := Option (String → String → Bool)

/-- Mutable state of a `USteamAIBridge` component. -/
structure State where
  Config : FSteamAIConfig
  bIsInitialized : Bool
  bInitializationInProgress : Bool
  RegisteredActions : List (String × List (String × FActionDelegate))
  RegisteredConditions : List (String × List (String × FConditionDelegate))
  PerformanceStats : FSteamAIPerformanceStats
  ScriptCallsThisSecond : ℤ
  LastStatsUpdateTime : ℚ
  LastGCTime : ℚ
  V8ContextValid : Bool

/-- External world of the AI bridge: the `WITH_V8` build flag, the project
directories, and the file system (`FFileHelper::LoadFileToString`). -/
structure Env where
  withV8 : Bool
  projectContentDir : String
  projectDir : String
  files : String → Option String

/-- `ExecuteV8Script` is a placeholder in the source and always fails. -/
def ExecuteV8Script (_script : String) : Bool := false

/-- `ExecuteV8Function` is a placeholder in the source and returns empty. -/
def ExecuteV8Function (_functionName : String) (_parameters : List String) : String := ""

/-- Model of `ExecuteFallbackScript`: log (when debug logging is on) and
report success. -/
def ExecuteFallbackScript (cfg : FSteamAIConfig) (script : String) : Bool × List LogEntry :=
  (true,
    if cfg.bEnableDebugLogging then
      [⟨LogLevel.info, "Fallback script execution: " ++ script.take 100⟩]
    else [])

/-- Model of `ExecuteFallbackFunction`: log (when debug logging is on) and
return the empty result. -/
def ExecuteFallbackFunction (cfg : FSteamAIConfig) (functionName : String)
    (_parameters : List String) : String × List LogEntry :=
  ("",
    if cfg.bEnableDebugLogging then
      [⟨LogLevel.info, "Fallback function execution: " ++ functionName⟩]
    else [])

/-- The V8 code path is taken when the build has V8, the config asks for it,
and `V8Context.IsValid()`. -/
def usesV8 (withV8 : Bool) (s : State) : Bool :=
  withV8 && s.Config.bUseV8Engine && s.V8ContextValid

/-- Performance-stats bookkeeping shared by both engine paths of
`ExecuteScript` / `ExecuteFunction`. -/
def recordScriptCall (s : State) (msStart msEnd : ℚ) : State :=
  if s.Config.bEnablePerformanceMonitoring then
    { s with
        PerformanceStats := { s.PerformanceStats with ScriptExecutionTimeMs := msEnd - msStart },
        ScriptCallsThisSecond := s.ScriptCallsThisSecond + 1 }
  else s

/-- Model of `USteamAIBridge::ExecuteScript`.  `msStart`/`msEnd` are the two
reads of `GetCurrentTimeMilliseconds()`. -/
def ExecuteScript (withV8 : Bool) (s : State) (script : String) (msStart msEnd : ℚ) :
    Bool × State × List LogEntry :=
  if s.bIsInitialized = false then
    (false, s, [⟨LogLevel.error, "Attempting to execute script on uninitialized bridge"⟩])
  else if usesV8 withV8 s then
    (ExecuteV8Script script, recordScriptCall s msStart msEnd, [])
  else
    let r := ExecuteFallbackScript s.Config script
    (r.1, recordScriptCall s msStart msEnd, r.2)

/-- Model of `USteamAIBridge::ExecuteFunction`. -/
def ExecuteFunction (withV8 : Bool) (s : State) (functionName : String)
    (parameters : List String) (msStart msEnd : ℚ) : String × State × List LogEntry :=
  if s.bIsInitialized = false then
    ("", s, [⟨LogLevel.error, "Attempting to execute function on uninitialized bridge"⟩])
  else if usesV8 withV8 s then
    (ExecuteV8Function functionName parameters, recordScriptCall s msStart msEnd, [])
  else
    let r := ExecuteFallbackFunction s.Config functionName parameters
    (r.1, recordScriptCall s msStart msEnd, r.2)

/-- Script template of `USteamAIBridge::CreateAgent`. -/
def CreateAgentScript (AgentId AgentConfig : String) : String :=
  "\n        if (window.agentManager) \x7b\n            try \x7b\n                const config = "
    ++ AgentConfig
    ++ ";\n                const agent = window.agentManager.createAgent(\x27"
    ++ AgentId
    ++ "\x27, config);\n                window.agents[\x27"
    ++ AgentId
    ++ "\x27] = agent;\n                true;\n            \x7d catch (e) \x7b\n                console.error(\x27Failed to create agent:\x27, e.message);\n                false;\n            \x7d\n        \x7d else \x7b\n            console.error(\x27Agent manager not initialized\x27);\n            false;\n        \x7d\n    "

/-- Script template of `USteamAIBridge::CreateBehaviorTree`. -/
def CreateBehaviorTreeScript (TreeId TreeConfig : String) : String :=
  "\n        if (window.behaviorTreeEngine) \x7b\n            try \x7b\n                const config = "
    ++ TreeConfig
    ++ ";\n                window.behaviorTreeEngine.createTree(\x27"
    ++ TreeId
    ++ "\x27, config);\n                window.behaviorTrees[\x27"
    ++ TreeId
    ++ "\x27] = config;\n                true;\n            \x7d catch (e) \x7b\n                console.error(\x27Failed to create behavior tree:\x27, e.message);\n                false;\n            \x7d\n        \x7d else \x7b\n            console.error(\x27Behavior tree engine not initialized\x27);\n            false;\n        \x7d\n    "

/-- Script template of `USteamAIBridge::SetAgentMemory`. -/
def SetAgentMemoryScript (AgentId Key Value : String) : String :=
  "\n        if (window.agentManager && window.agents[\x27"
    ++ AgentId
    ++ "\x27]) \x7b\n            try \x7b\n                window.agentManager.updateAgentMemory(\x27"
    ++ AgentId
    ++ "\x27, \x27"
    ++ Key
    ++ "\x27, "
    ++ Value
    ++ ");\n                true;\n            \x7d catch (e) \x7b\n                console.error(\x27Failed to set agent memory:\x27, e.message);\n                false;\n            \x7d\n        \x7d else \x7b\n            false;\n        \x7d\n    "

/-- Wrapper the three script-building Blueprint calls share:
`ExecuteFunction("(function() { return <script> })", {})`, then test the
result for the substring `true`. -/
def runScriptForBool (withV8 : Bool) (s : State) (script : String) (msStart msEnd : ℚ) :
    Bool × State × List LogEntry :=
  let r := ExecuteFunction withV8 s ("(function() \x7b return " ++ script ++ " \x7d)") [] msStart msEnd
  (fstrContains r.1 ("true"), r.2.1, r.2.2)

/-- Model of `USteamAIBridge::CreateAgent`. -/
def CreateAgent (withV8 : Bool) (s : State) (AgentId AgentConfig : String) (msStart msEnd : ℚ) :
    Bool × State × List LogEntry :=
  runScriptForBool withV8 s (CreateAgentScript AgentId AgentConfig) msStart msEnd

/-- Model of `USteamAIBridge::CreateBehaviorTree`. -/
def CreateBehaviorTree (withV8 : Bool) (s : State) (TreeId TreeConfig : String) (msStart msEnd : ℚ) :
    Bool × State × List LogEntry :=
  runScriptForBool withV8 s (CreateBehaviorTreeScript TreeId TreeConfig) msStart msEnd

/-- Model of `USteamAIBridge::SetAgentMemory`. -/
def SetAgentMemory (withV8 : Bool) (s : State) (AgentId Key Value : String) (msStart msEnd : ℚ) :
    Bool × State × List LogEntry :=
  runScriptForBool withV8 s (SetAgentMemoryScript AgentId Key Value) msStart msEnd

/-- Model of `USteamAIBridge::ForceGarbageCollection`: run the gc script and
record the world time of this collection. -/
def ForceGarbageCollection (withV8 : Bool) (s : State) (msStart msEnd now : ℚ) :
    State × List LogEntry :=
  let r := ExecuteScript withV8 s ("if (typeof gc !== \x27undefined\x27) \x7b gc(); \x7d") msStart msEnd
  ({ r.2.1 with LastGCTime := now }, r.2.2)

/-- Model of `USteamAIBridge::HandleActionCallback`. -/
def HandleActionCallback (s : State) (AgentId ActionName AgentData BlackboardData : String) :
    Bool × List LogEntry :=
  let warn : List LogEntry :=
    [⟨LogLevel.warn, "No action callback found for agent " ++ AgentId ++ ", action " ++ ActionName⟩]
  match s.RegisteredActions.lookup AgentId with
  | some agentActions =>
    match agentActions.lookup ActionName with
    | some callback =>
      match callback with
      | some f => (f AgentData BlackboardData, [])
      | none => (false, warn)
    | none => (false, warn)
  | none => (false, warn)

/-- Model of `USteamAIBridge::HandleConditionCallback`. -/
def HandleConditionCallback (s : State) (AgentId ConditionName AgentData BlackboardData : String) :
    Bool × List LogEntry :=
  let warn : List LogEntry :=
    [⟨LogLevel.warn, "No condition callback found for agent " ++ AgentId ++ ", condition " ++ ConditionName⟩]
  match s.RegisteredConditions.lookup AgentId with
  | some agentConditions =>
    match agentConditions.lookup ConditionName with
    | some callback =>
      match callback with
      | some f => (f AgentData BlackboardData, [])
      | none => (false, warn)
    | none => (false, warn)
  | none => (false, warn)

/-- Model of `USteamAIBridge::RegisterAction`: create the per-agent map when
missing, then `Add` (overwrite) the delegate under the action name. -/
def RegisterAction (s : State) (AgentId ActionName : String) (Callback : FActionDelegate) :
    State × List LogEntry :=
  let outer :=
    if tmapContains s.RegisteredActions AgentId then s.RegisteredActions
    else tmapAdd s.RegisteredActions AgentId []
  let inner := (outer.lookup AgentId).getD []
  ({ s with RegisteredActions := tmapAdd outer AgentId (tmapAdd inner ActionName Callback) },
    [⟨LogLevel.info, "Registered action " ++ ActionName ++ " for agent " ++ AgentId⟩])

/-- Model of `USteamAIBridge::RegisterCondition`. -/
def RegisterCondition (s : State) (AgentId ConditionName : String) (Callback : FConditionDelegate) :
    State × List LogEntry :=
  let outer :=
    if tmapContains s.RegisteredConditions AgentId then s.RegisteredConditions
    else tmapAdd s.RegisteredConditions AgentId []
  let inner := (outer.lookup AgentId).getD []
  ({ s with RegisteredConditions := tmapAdd outer AgentId (tmapAdd inner ConditionName Callback) },
    [⟨LogLevel.info, "Registered condition " ++ ConditionName ++ " for agent " ++ AgentId⟩])

/-- Characters of one `"<name>":<%.2f>` member of the vector JSON object. -/
def fieldChars (name : Char) (q : ℚ) : List Char :=
  dquote :: name :: dquote :: ':' :: fmtFixedChars 2 q

/-- Characters printed by `USteamAIBridge::VectorToJSON`
(`{"x":%.2f,"y":%.2f,"z":%.2f}`). -/
def VectorToJSONChars (v : Vec3) : List Char :=
  lbrace :: (fieldChars 'x' v.x ++ ',' :: fieldChars 'y' v.y ++ ',' :: fieldChars 'z' v.z ++ [rbrace])

/-- Model of `USteamAIBridge::VectorToJSON`. -/
def VectorToJSON (v : Vec3) : String := String.mk (VectorToJSONChars v)

/-- Model of `USteamAIBridge::JSONToVector`: deserialize, read the `x`, `y`,
`z` number fields; the zero vector when the string does not parse as a JSON
object. -/
def JSONToVector (s : String) : Vec3 :=
  match deserializeObject s with
  | some fields =>
    ⟨getNumberField fields ("x"), getNumberField fields ("y"), getNumberField fields ("z")⟩
  | none => ⟨0, 0, 0⟩

/-- Leading half of the module shim `LoadSteamAIPackage` wraps scripts in. -/
def moduleShimPrelude : String :=
  "\n        (function() \x7b\n            // Module system\n            var module = \x7b exports: \x7b\x7d \x7d;\n"
    ++ "            var exports = module.exports;\n            var global = this;\n            var window = global;\n\n"
    ++ "            // Steam AI Package Code\n            "

/-- Trailing half of the module shim. -/
def moduleShimEpilogue : String :=
  "\n\n            // Export to global scope\n            if (typeof module !== \x27undefined\x27 && module.exports) \x7b\n"
    ++ "                window.SteamAI = module.exports;\n            \x7d\n\n"
    ++ "            console.log(\x27Steam AI package loaded successfully\x27);\n        \x7d).call(this);\n    "

/-- The module shim: an immediately-invoked function defining `module`,
`exports`, `global`, `window`, splicing the package code unchanged, and
exporting `module.exports` as `window.SteamAI`. -/
def wrapModuleShim (code : String) : String :=
  moduleShimPrelude ++ code ++ moduleShimEpilogue

/-- First file among the given paths that loads, mirroring the alternative-
path loop of `LoadSteamAIPackage`. -/
def firstFile (files : String → Option String) : List String → Option String
  | [] => none
  | p :: ps =>
    match files p with
    | some code => some code
    | none => firstFile files ps

/-- The three alternative package locations tried when the configured path
has no file. -/
def alternativePaths (env : Env) : List String :=
  [env.projectContentDir ++ "JavaScript/steam-ai.js",
   env.projectContentDir ++ "Scripts/steam-ai.js",
   env.projectDir ++ "steam-ai.js"]

/-- Model of `USteamAIBridge::LoadSteamAIPackage`.  The last component of
the result is the script passed to `ExecuteScript`, when one is. -/
def LoadSteamAIPackage (env : Env) (s : State) (msStart msEnd : ℚ) :
    Bool × State × List LogEntry × Option String :=
  let primary := env.projectContentDir ++ s.Config.JavaScriptFilePath
  let loaded :=
    match env.files primary with
    | some code => some code
    | none => firstFile env.files (alternativePaths env)
  match loaded with
  | none =>
    (false, s, [⟨LogLevel.error, "Steam AI package file not found at: " ++ primary⟩], none)
  | some code =>
    let wrapped := wrapModuleShim code
    let r := ExecuteScript env.withV8 s wrapped msStart msEnd
    (r.1, r.2.1, r.2.2, some wrapped)

/-- The Unreal-side binding script `SetupUnrealBindings` executes. -/
def UnrealBindingScript : String :=
  "\n        // Unreal Engine specific bindings\n        window.Unreal = \x7b\n"
    ++ "            log: function(message) \x7b\n                window.UnrealCallbacks.Log(String(message));\n            \x7d,\n"
    ++ "            warn: function(message) \x7b\n                window.UnrealCallbacks.Warn(String(message));\n            \x7d,\n"
    ++ "            error: function(message) \x7b\n                window.UnrealCallbacks.Error(String(message));\n            \x7d,\n"
    ++ "            getTime: function() \x7b\n                return window.UnrealCallbacks.GetTime();\n            \x7d,\n"
    ++ "            getDeltaTime: function() \x7b\n                return window.UnrealCallbacks.GetDeltaTime();\n            \x7d,\n"
    ++ "            createVector3: function(x, y, z) \x7b\n                return JSON.parse(window.UnrealCallbacks.CreateVector3(x || 0, y || 0, z || 0));\n            \x7d,\n"
    ++ "            calculateDistance: function(a, b) \x7b\n                return window.UnrealCallbacks.CalculateDistance(JSON.stringify(a), JSON.stringify(b));\n            \x7d\n"
    ++ "        \x7d;\n\n        // Console compatibility\n        if (typeof console === \x27undefined\x27) \x7b\n"
    ++ "            window.console = \x7b\n                log: window.Unreal.log,\n                warn: window.Unreal.warn,\n                error: window.Unreal.error\n            \x7d;\n        \x7d\n\n"
    ++ "        // Callback system for actions and conditions\n"
    ++ "        window.UnrealCallAction = function(agentId, actionName, agent, blackboard) \x7b\n            try \x7b\n"
    ++ "                return window.UnrealCallbacks.CallAction(agentId, actionName, JSON.stringify(agent), JSON.stringify(blackboard));\n"
    ++ "            \x7d catch (e) \x7b\n                console.error(\x27Action callback error:\x27, e.message);\n                return false;\n            \x7d\n        \x7d;\n\n"
    ++ "        window.UnrealCallCondition = function(agentId, conditionName, agent, blackboard) \x7b\n            try \x7b\n"
    ++ "                return window.UnrealCallbacks.CallCondition(agentId, conditionName, JSON.stringify(agent), JSON.stringify(blackboard));\n"
    ++ "            \x7d catch (e) \x7b\n                console.error(\x27Condition callback error:\x27, e.message);\n                return false;\n            \x7d\n        \x7d;\n\n"
    ++ "        // Initialize Steam AI components\n        if (typeof window.SteamAI !== \x27undefined\x27) \x7b\n"
    ++ "            const \x7b AgentManager, BehaviorTreeEngine, StateMachineEngine \x7d = window.SteamAI;\n\n"
    ++ "            window.agentManager = new AgentManager();\n            window.behaviorTreeEngine = new BehaviorTreeEngine();\n            window.stateMachineEngine = new StateMachineEngine();\n\n"
    ++ "            // Global storage\n            window.agents = \x7b\x7d;\n            window.behaviorTrees = \x7b\x7d;\n            window.stateMachines = \x7b\x7d;\n\n"
    ++ "            console.log(\x27Steam AI components initialized\x27);\n        \x7d else \x7b\n"
    ++ "            console.error(\x27Steam AI package not found\x27);\n        \x7d\n    "

/-- Model of `SetupUnrealBindings` (result of the void `ExecuteScript` call
is dropped). -/
def SetupUnrealBindings (withV8 : Bool) (s : State) (msStart msEnd : ℚ) :
    State × List LogEntry :=
  let r := ExecuteScript withV8 s UnrealBindingScript msStart msEnd
  (r.2.1, r.2.2)

/-- `InitializeV8Engine` is a placeholder in the source and always fails. -/
def InitializeV8Engine : Bool × List LogEntry :=
  (false, [⟨LogLevel.info, "V8 engine initialization not fully implemented"⟩])

/-- `InitializeFallbackEngine` always succeeds. -/
def InitializeFallbackEngine : Bool × List LogEntry :=
  (true, [⟨LogLevel.info, "Using fallback JavaScript engine (limited functionality)"⟩])

/-- Model of `SetupJavaScriptEnvironment`: try V8 when compiled in and
configured, fall back otherwise (and on V8 failure, which always happens). -/
def SetupJavaScriptEnvironment (withV8 : Bool) (s : State) : List LogEntry :=
  if withV8 && s.Config.bUseV8Engine then
    InitializeV8Engine.2
      ++ [⟨LogLevel.warn, "V8 engine initialization failed, falling back to alternative"⟩]
      ++ InitializeFallbackEngine.2
  else InitializeFallbackEngine.2

/-- Model of `USteamAIBridge::InitializeAI`.  Result: returned bool, final
state, logs, and the values broadcast on `OnAIInitialized`. -/
def InitializeAI (env : Env) (s : State) (msStart msEnd : ℚ) :
    Bool × State × List LogEntry × List Bool :=
  if s.bIsInitialized || s.bInitializationInProgress then
    (s.bIsInitialized, s, [], [])
  else
    let s1 : State := { s with bInitializationInProgress := true }
    let logs0 : List LogEntry := [⟨LogLevel.info, "Initializing Steam AI Bridge..."⟩]
    let envLogs := SetupJavaScriptEnvironment env.withV8 s1
    let load := LoadSteamAIPackage env s1 msStart msEnd
    if load.1 = false then
      (false, { load.2.1 with bInitializationInProgress := false },
        logs0 ++ envLogs ++ load.2.2.1 ++ [⟨LogLevel.error, "Failed to load Steam AI package"⟩],
        [false])
    else
      let bind := SetupUnrealBindings env.withV8 load.2.1 msStart msEnd
      (true,
        { bind.1 with bIsInitialized := true, bInitializationInProgress := false },
        logs0 ++ envLogs ++ load.2.2.1 ++ bind.2
          ++ [⟨LogLevel.info, "Steam AI Bridge initialized successfully"⟩],
        [true])

/-- Model of `UpdatePerformanceStats` (its `StatsUpdateInterval` is 1s). -/
def UpdatePerformanceStats (s : State) (dt : ℚ) : State :=
  if s.Config.bEnablePerformanceMonitoring = false then s
  else
    let t := s.LastStatsUpdateTime + dt
    if t ≥ 1 then
      { s with
          PerformanceStats :=
            { s.PerformanceStats with
                ScriptCallsPerSecond := s.ScriptCallsThisSecond,
                ActiveAgents := (s.RegisteredActions.length : ℤ),
                ActiveTrees := 0 },
          ScriptCallsThisSecond := 0,
          LastStatsUpdateTime := 0 }
    else { s with LastStatsUpdateTime := t }

/-- Model of `USteamAIBridge::PerformPeriodicMaintenance`; `now` is
`GetWorld()->GetTimeSeconds()`. -/
def PerformPeriodicMaintenance (withV8 : Bool) (s : State) (now msStart msEnd : ℚ) :
    State × List LogEntry :=
  if now - s.LastGCTime ≥ s.Config.GarbageCollectionInterval then
    ForceGarbageCollection withV8 s msStart msEnd now
  else (s, [])

/-- Model of `USteamAIBridge::TickComponent`: stats update and periodic
maintenance run only on an initialized bridge. -/
def TickComponent (withV8 : Bool) (s : State) (DeltaTime now msStart msEnd : ℚ) :
    State × List LogEntry :=
  if s.bIsInitialized then
    PerformPeriodicMaintenance withV8 (UpdatePerformanceStats s DeltaTime) now msStart msEnd
  else (s, [])

end USteamAIBridge

namespace UDataVisualizationBridge

/-- Mirror of `FBatchUpdateData`. -/
structure FBatchUpdateData where
  ChartId : String
  Method : String
  Data : String
  Timestamp : ℚ
deriving DecidableEq

/-- Mutable state of a `UDataVisualizationBridge`.  `Cfg` is the opaque
`TSharedPtr<FJsonObject>` / `TArray<TSharedPtr<FJsonValue>>` payload handed
in by callers.  Log lines of this component are incidental and are not
modelled. -/
structure State (Cfg : Type) where
  bEnableDebugMode : Bool
  PackagePath : String
  MemoryLimit : ℤ
  bAutoCleanup : Bool
  bEnableBatchUpdates : Bool
  BatchInterval : ℚ
  MaxDataPointsPerChart : ℤ
  bIsInitialized : Bool
  LastBatchTime : ℚ
  Charts : List (String × Cfg)
  Dashboards : List (String × Cfg)
  PendingUpdates : List FBatchUpdateData
  JavaScriptContextValid : Bool

/-- External world of the visualization bridge: the `WITH_V8` build flag,
the V8 engine (`exec` gives the result string `ExecuteJavaScript` sees for a
script once the context is valid), serialization of the opaque JSON
payloads, and the file system. -/
structure Env (Cfg : Type) where
  withV8 : Bool
  exec : String → String
  jsonToString : Cfg → String
  jsonArrToString : Cfg → String
  fileExists : String → Bool
  files : String → Option String
  engineCreateOk : Bool
  projectContentDir : String

/-- Model of `UDataVisualizationBridge::ExecuteJavaScript`. -/
def ExecuteJavaScript {Cfg : Type} (env : Env Cfg) (s : State Cfg) (script : String) : String :=
  if env.withV8 = false then "ERROR: V8 not available"
  else if s.JavaScriptContextValid = false then "ERROR: JavaScript context not available"
  else env.exec script

/-- The `global.vizManager.<method>('<id>', <config>);` script of a chart
creation call. -/
def createChartScript (method ChartId ConfigJson : String) : String :=
  "global.vizManager." ++ method ++ "(\x27" ++ ChartId ++ "\x27, " ++ ConfigJson ++ ");"

/-- Shared body of the five chart-creation methods: run the creation script
and record the chart on success (no `ERROR` in the result). -/
def CreateChartCommon {Cfg : Type} (env : Env Cfg) (s : State Cfg) (method ChartId : String)
    (Config : Cfg) : State Cfg × List String :=
  if s.bIsInitialized = false then (s, [])
  else
    let script := createChartScript method ChartId (env.jsonToString Config)
    let r := ExecuteJavaScript env s script
    if fstrContains r ("ERROR") = false then
      ({ s with Charts := tmapAdd s.Charts ChartId Config }, [script])
    else (s, [script])

/-- Model of `UDataVisualizationBridge::CreateLineChart`. -/
def CreateLineChart {Cfg : Type} (env : Env Cfg) (s : State Cfg) (ChartId : String) (Config : Cfg) :
    State Cfg × List String :=
  CreateChartCommon env s ("createLineChart") ChartId Config

/-- Model of `UDataVisualizationBridge::CreateBarChart`. -/
def CreateBarChart {Cfg : Type} (env : Env Cfg) (s : State Cfg) (ChartId : String) (Config : Cfg) :
    State Cfg × List String :=
  CreateChartCommon env s ("createBarChart") ChartId Config

/-- Model of `UDataVisualizationBridge::CreatePieChart`. -/
def CreatePieChart {Cfg : Type} (env : Env Cfg) (s : State Cfg) (ChartId : String) (Config : Cfg) :
    State Cfg × List String :=
  CreateChartCommon env s ("createPieChart") ChartId Config

/-- Model of `UDataVisualizationBridge::CreateHeatmap`. -/
def CreateHeatmap {Cfg : Type} (env : Env Cfg) (s : State Cfg) (ChartId : String) (Config : Cfg) :
    State Cfg × List String :=
  CreateChartCommon env s ("createHeatmap") ChartId Config

/-- Model of `UDataVisualizationBridge::CreateGauge`. -/
def CreateGauge {Cfg : Type} (env : Env Cfg) (s : State Cfg) (ChartId : String) (Config : Cfg) :
    State Cfg × List String :=
  CreateChartCommon env s ("createGauge") ChartId Config

/-- Model of `UDataVisualizationBridge::CreateDashboard` (records into
`Dashboards` instead of `Charts`). -/
def CreateDashboard {Cfg : Type} (env : Env Cfg) (s : State Cfg) (DashboardId : String)
    (Config : Cfg) : State Cfg × List String :=
  if s.bIsInitialized = false then (s, [])
  else
    let script :=
      "global.vizManager.createDashboard(\x27" ++ DashboardId ++ "\x27, "
        ++ env.jsonToString Config ++ ");"
    let r := ExecuteJavaScript env s script
    if fstrContains r ("ERROR") = false then
      ({ s with Dashboards := tmapAdd s.Dashboards DashboardId Config }, [script])
    else (s, [script])

/-- The `{"timestamp": %lld, "value": %f}` payload of a single-value batch
entry. -/
def singleDataPayload (Timestamp : ℤ) (Value : ℚ) : String :=
  "\x7b\"timestamp\": " ++ intToDecString Timestamp ++ ", \"value\": " ++ fmtFixed 6 Value ++ "\x7d"

/-- The `global.vizManager.updateChart('<id>', %lld, %f);` script of an
immediate single-value update. -/
def updateChartScript (ChartId : String) (Timestamp : ℤ) (Value : ℚ) : String :=
  "global.vizManager.updateChart(\x27" ++ ChartId ++ "\x27, " ++ intToDecString Timestamp
    ++ ", " ++ fmtFixed 6 Value ++ ");"

/-- The `global.vizManager.updateChartMultiData('<id>', <data>);` script. -/
def updateChartMultiScript (ChartId DataJson : String) : String :=
  "global.vizManager.updateChartMultiData(\x27" ++ ChartId ++ "\x27, " ++ DataJson ++ ");"

/-- The `global.vizManager.updateChartArrayData('<id>', <data>);` script. -/
def updateChartArrayScript (ChartId DataJson : String) : String :=
  "global.vizManager.updateChartArrayData(\x27" ++ ChartId ++ "\x27, " ++ DataJson ++ ");"

/-- Model of `UDataVisualizationBridge::UpdateChartImmediate`. -/
def UpdateChartImmediate {Cfg : Type} (env : Env Cfg) (s : State Cfg) (ChartId : String)
    (Timestamp : ℤ) (Value : ℚ) : State Cfg × List String :=
  let script := updateChartScript ChartId Timestamp Value
  let _r := ExecuteJavaScript env s script
  (s, [script])

/-- Model of `UDataVisualizationBridge::UpdateChartMultiDataImmediate`. -/
def UpdateChartMultiDataImmediate {Cfg : Type} (env : Env Cfg) (s : State Cfg) (ChartId : String)
    (Data : Cfg) : State Cfg × List String :=
  let script := updateChartMultiScript ChartId (env.jsonToString Data)
  let _r := ExecuteJavaScript env s script
  (s, [script])

/-- Model of `UDataVisualizationBridge::UpdateChartArrayDataImmediate`. -/
def UpdateChartArrayDataImmediate {Cfg : Type} (env : Env Cfg) (s : State Cfg) (ChartId : String)
    (Data : Cfg) : State Cfg × List String :=
  let script := updateChartArrayScript ChartId (env.jsonArrToString Data)
  let _r := ExecuteJavaScript env s script
  (s, [script])

/-- Model of `UDataVisualizationBridge::UpdateChart`; `now` is
`FPlatformTime::Seconds()`. -/
def UpdateChart {Cfg : Type} (env : Env Cfg) (s : State Cfg) (ChartId : String) (Timestamp : ℤ)
    (Value : ℚ) (now : ℚ) : State Cfg × List String :=
  if s.bIsInitialized = false then (s, [])
  else if s.bEnableBatchUpdates then
    ({ s with
        PendingUpdates :=
          s.PendingUpdates
            ++ [⟨ChartId, "updateSingleData", singleDataPayload Timestamp Value, now⟩] }, [])
  else UpdateChartImmediate env s ChartId Timestamp Value

/-- Model of `UDataVisualizationBridge::UpdateChartMultiData`. -/
def UpdateChartMultiData {Cfg : Type} (env : Env Cfg) (s : State Cfg) (ChartId : String)
    (Data : Cfg) (now : ℚ) : State Cfg × List String :=
  if s.bIsInitialized = false then (s, [])
  else if s.bEnableBatchUpdates then
    ({ s with
        PendingUpdates :=
          s.PendingUpdates ++ [⟨ChartId, "updateMultiData", env.jsonToString Data, now⟩] }, [])
  else UpdateChartMultiDataImmediate env s ChartId Data

/-- Model of `UDataVisualizationBridge::UpdateChartArray`. -/
def UpdateChartArray {Cfg : Type} (env : Env Cfg) (s : State Cfg) (ChartId : String)
    (Data : Cfg) (now : ℚ) : State Cfg × List String :=
  if s.bIsInitialized = false then (s, [])
  else if s.bEnableBatchUpdates then
    ({ s with
        PendingUpdates :=
          s.PendingUpdates ++ [⟨ChartId, "updateArrayData", env.jsonArrToString Data, now⟩] }, [])
  else UpdateChartArrayDataImmediate env s ChartId Data

/-- The `startBatch` call opening a per-chart batch script. -/
def startBatchCall (ChartId : String) : String :=
  "global.vizManager.startBatch(\x27" ++ ChartId ++ "\x27);"

/-- The `commitBatch` call closing a per-chart batch script. -/
def commitBatchCall (ChartId : String) : String :=
  "global.vizManager.commitBatch(\x27" ++ ChartId ++ "\x27);"

/-- The batch call emitted for one pending update, keyed on its `Method`
(unknown methods contribute nothing, as in the source's if/else chain). -/
def batchCallFor (ChartId : String) (u : FBatchUpdateData) : String :=
  if u.Method = "updateSingleData" then
    "global.vizManager.batchUpdateSingle(\x27" ++ ChartId ++ "\x27, " ++ u.Data ++ ");"
  else if u.Method = "updateMultiData" then
    "global.vizManager.batchUpdateMulti(\x27" ++ ChartId ++ "\x27, " ++ u.Data ++ ");"
  else if u.Method = "updateArrayData" then
    "global.vizManager.batchUpdateArray(\x27" ++ ChartId ++ "\x27, " ++ u.Data ++ ");"
  else ""

/-- One chart's batch script: its updates bracketed by `startBatch` and
`commitBatch`. -/
def buildBatchScript (ChartId : String) (ups : List FBatchUpdateData) : String :=
  startBatchCall ChartId ++ String.join (ups.map (batchCallFor ChartId)) ++ commitBatchCall ChartId

/-- One step of the grouping loop of `ProcessBatchedUpdates`: append the
update to its chart's slot, creating the slot at the end when missing (the
`TMap` preserves insertion order). -/
def addToGroup : List (String × List FBatchUpdateData) → FBatchUpdateData →
    List (String × List FBatchUpdateData)
  | [], u => [(u.ChartId, [u])]
  | (k, l) :: rest, u =>
    if k = u.ChartId then (k, l ++ [u]) :: rest else (k, l) :: addToGroup rest u

/-- The grouping loop of `ProcessBatchedUpdates`. -/
def groupUpdates (us : List FBatchUpdateData) : List (String × List FBatchUpdateData) :=
  us.foldl addToGroup []

/-- Model of `UDataVisualizationBridge::ProcessBatchedUpdates`. -/
def ProcessBatchedUpdates {Cfg : Type} (env : Env Cfg) (s : State Cfg) :
    State Cfg × List String :=
  if s.PendingUpdates = [] then (s, [])
  else
    let grouped := groupUpdates s.PendingUpdates
    let scripts := grouped.map (fun p => buildBatchScript p.1 p.2)
    let _results := scripts.map (ExecuteJavaScript env s)
    ({ s with PendingUpdates := [] }, scripts)

/-- Model of `UDataVisualizationBridge::ProcessPendingUpdates`. -/
def ProcessPendingUpdates {Cfg : Type} (env : Env Cfg) (s : State Cfg) :
    State Cfg × List String :=
  ProcessBatchedUpdates env s

/-- Model of `UDataVisualizationBridge::ApplyBatchedUpdates`. -/
def ApplyBatchedUpdates {Cfg : Type} (env : Env Cfg) (s : State Cfg)
    (Updates : List FBatchUpdateData) : State Cfg × List String :=
  ProcessBatchedUpdates env { s with PendingUpdates := s.PendingUpdates ++ Updates }

/-- Model of `UDataVisualizationBridge::Tick`; both `FPlatformTime` reads of
one tick are idealized to the same instant `now`. -/
def Tick {Cfg : Type} (env : Env Cfg) (s : State Cfg) (now : ℚ) : State Cfg × List String :=
  if s.bEnableBatchUpdates && decide (now - s.LastBatchTime ≥ s.BatchInterval) then
    let r := ProcessBatchedUpdates env s
    ({ r.1 with LastBatchTime := now }, r.2)
  else (s, [])

/-- The `global.vizManager.removeChart('<id>');` script. -/
def removeChartScript (ChartId : String) : String :=
  "global.vizManager.removeChart(\x27" ++ ChartId ++ "\x27);"

/-- The `global.vizManager.clearAllCharts();` script. -/
def clearAllChartsScript : String := "global.vizManager.clearAllCharts();"

/-- The `global.vizManager.exportAsImage('<id>', '<fmt>');` script. -/
def exportImageScript (ChartId Format : String) : String :=
  "global.vizManager.exportAsImage(\x27" ++ ChartId ++ "\x27, \x27" ++ Format ++ "\x27);"

/-- The `global.vizManager.exportAsData('<id>', '<fmt>');` script. -/
def exportDataScript (ChartId Format : String) : String :=
  "global.vizManager.exportAsData(\x27" ++ ChartId ++ "\x27, \x27" ++ Format ++ "\x27);"

/-- Model of `UDataVisualizationBridge::RemoveChart`. -/
def RemoveChart {Cfg : Type} (env : Env Cfg) (s : State Cfg) (ChartId : String) :
    State Cfg × List String :=
  if s.bIsInitialized = false then (s, [])
  else
    let script := removeChartScript ChartId
    let r := ExecuteJavaScript env s script
    if fstrContains r ("ERROR") = false then
      ({ s with Charts := tmapRemove s.Charts ChartId }, [script])
    else (s, [script])

/-- Model of `UDataVisualizationBridge::ClearAllCharts`. -/
def ClearAllCharts {Cfg : Type} (env : Env Cfg) (s : State Cfg) : State Cfg × List String :=
  if s.bIsInitialized = false then (s, [])
  else
    let script := clearAllChartsScript
    let r := ExecuteJavaScript env s script
    if fstrContains r ("ERROR") = false then
      ({ s with Charts := [], Dashboards := [] }, [script])
    else (s, [script])

/-- Model of `UDataVisualizationBridge::ExportChartAsImage`. -/
def ExportChartAsImage {Cfg : Type} (env : Env Cfg) (s : State Cfg) (ChartId Format : String) :
    String :=
  if s.bIsInitialized = false then ""
  else
    let r := ExecuteJavaScript env s (exportImageScript ChartId Format)
    if fstrContains r ("ERROR") then "" else r

/-- Model of `UDataVisualizationBridge::ExportChartAsData`. -/
def ExportChartAsData {Cfg : Type} (env : Env Cfg) (s : State Cfg) (ChartId Format : String) :
    String :=
  if s.bIsInitialized = false then ""
  else
    let r := ExecuteJavaScript env s (exportDataScript ChartId Format)
    if fstrContains r ("ERROR") then "" else r

/-- Model of `UDataVisualizationBridge::Dispose`: tear down when
initialized, then unconditionally empty every collection. -/
def Dispose {Cfg : Type} (env : Env Cfg) (s : State Cfg) : State Cfg × List String :=
  let p :=
    if s.bIsInitialized then
      let c := ClearAllCharts env s
      ({ c.1 with JavaScriptContextValid := false, bIsInitialized := false }, c.2)
    else (s, [])
  ({ p.1 with Charts := [], Dashboards := [], PendingUpdates := [] }, p.2)

/-- The console/timer utility script installed by
`InitializeJavaScriptEngine`. -/
def UtilityScript : String :=
  "\n            global.console = \x7b\n                log: function(msg) \x7b Unreal.Log(msg); \x7d,\n"
    ++ "                warn: function(msg) \x7b Unreal.LogWarning(msg); \x7d,\n"
    ++ "                error: function(msg) \x7b Unreal.LogError(msg); \x7d\n            \x7d;\n\n"
    ++ "            global.setTimeout = function(callback, delay) \x7b\n                Unreal.SetTimeout(callback.toString(), delay);\n            \x7d;\n\n"
    ++ "            global.setInterval = function(callback, interval) \x7b\n                return Unreal.SetInterval(callback.toString(), interval);\n            \x7d;\n\n"
    ++ "            global.Date = \x7b\n                now: function() \x7b return Unreal.GetUnixTimestamp(); \x7d\n            \x7d;\n        "

/-- Model of `InitializeJavaScriptEngine`: fails without V8; with V8 the
engine/context creation is the environment's `engineCreateOk`, and success
validates the context and runs the utility script. -/
def InitializeJavaScriptEngine {Cfg : Type} (env : Env Cfg) (s : State Cfg) :
    Bool × State Cfg × List String :=
  if env.withV8 = false then (false, s, [])
  else if env.engineCreateOk = false then (false, s, [])
  else (true, { s with JavaScriptContextValid := true }, [UtilityScript])

/-- Boolean literal as the `%s` of the initialization script prints it. -/
def boolStr (b : Bool) : String := if b then "true" else "false"

/-- The visualization-manager initialization script of
`LoadDataVisualizationPackage`, with the bridge's configuration spliced in. -/
def vizInitScript {Cfg : Type} (s : State Cfg) : String :=
  "\n        if (typeof DataVisualizationManager === \x27undefined\x27) \x7b\n"
    ++ "            throw new Error(\x27DataVisualizationManager not found in package\x27);\n        \x7d\n\n"
    ++ "        global.vizManager = new DataVisualizationManager(\x7b\n            debug: "
    ++ boolStr s.bEnableDebugMode
    ++ ",\n            autoCleanup: "
    ++ boolStr s.bAutoCleanup
    ++ ",\n            memoryLimit: "
    ++ intToDecString s.MemoryLimit
    ++ ",\n            maxDataPointsPerChart: "
    ++ intToDecString s.MaxDataPointsPerChart
    ++ ",\n            platform: \x27unreal\x27\n        \x7d);\n\n"
    ++ "        // Set up event handlers\n"
    ++ "        global.vizManager.on(\x27thresholdCrossed\x27, function(data) \x7b\n            Unreal.OnThresholdCrossed(data.chartId, JSON.stringify(data));\n        \x7d);\n\n"
    ++ "        global.vizManager.on(\x27dataPointAdded\x27, function(data) \x7b\n            Unreal.OnDataPointAdded(data.chartId, JSON.stringify(data));\n        \x7d);\n\n"
    ++ "        global.vizManager.on(\x27error\x27, function(error) \x7b\n            Unreal.OnChartError(error.chartId, error.message);\n        \x7d);\n\n"
    ++ "        console.log(\x27Data Visualization Manager initialized for Unreal Engine\x27);\n    "

/-- Location of the package's main file. -/
def mainFilePath {Cfg : Type} (env : Env Cfg) : String :=
  env.projectContentDir
    ++ "JavaScript/node_modules/@steamproject/data-visualization/dist/index.js"

/-- Model of `LoadDataVisualizationPackage` on a state whose context is
already set up. -/
def LoadDataVisualizationPackage {Cfg : Type} (env : Env Cfg) (s : State Cfg) :
    Bool × List String :=
  if env.fileExists (mainFilePath env) = false then (false, [])
  else
    match env.files (mainFilePath env) with
    | none => (false, [])
    | some code =>
      let r1 := ExecuteJavaScript env s code
      if fstrContains r1 ("ERROR") then (false, [code])
      else
        let initScript := vizInitScript s
        let r2 := ExecuteJavaScript env s initScript
        if fstrContains r2 ("ERROR") then (false, [code, initScript])
        else (true, [code, initScript])

/-- Model of `UDataVisualizationBridge::Initialize`. -/
def InitializeBridge {Cfg : Type} (env : Env Cfg) (s : State Cfg) :
    Bool × State Cfg × List String :=
  if s.bIsInitialized then (true, s, [])
  else
    let e := InitializeJavaScriptEngine env s
    if e.1 = false then (false, e.2.1, e.2.2)
    else
      let l := LoadDataVisualizationPackage env e.2.1
      if l.1 = false then (false, e.2.1, e.2.2 ++ l.2)
      else (true, { e.2.1 with bIsInitialized := true }, e.2.2 ++ l.2)

end UDataVisualizationBridge

/-! ### Concrete fixtures used to instantiate the universally quantified
statements below. -/

/-- Zeroed performance stats. -/
def stats0 : USteamAIBridge.FSteamAIPerformanceStats := ⟨0, 0, 0, 0, 0, 0⟩

/-- A sample AI bridge configuration. -/
def cfgAI : USteamAIBridge.FSteamAIConfig := ⟨false, "steam-ai.js", true, 30, 128, false⟩

/-- An uninitialized AI bridge. -/
def aiUninit : USteamAIBridge.State := ⟨cfgAI, false, false, [], [], stats0, 0, 0, 0, false⟩

/-- An initialized AI bridge with no registrations. -/
def aiInit : USteamAIBridge.State := { aiUninit with bIsInitialized := true }

/-- An initialized AI bridge with one registered action and condition. -/
def aiRegistered : USteamAIBridge.State :=
  { aiInit with
      RegisteredActions := [(("a"), [(("act"), some (fun _ _ => true))])],
      RegisteredConditions := [(("a"), [(("cnd"), some (fun _ _ => false))])] }

/-- An AI environment with an empty file system. -/
def aiEnvNoFiles : USteamAIBridge.Env := ⟨false, "C/", "P/", fun _ => none⟩

/-- An AI environment whose file system has the package at the configured
path `C/steam-ai.js`. -/
def aiEnvWithFile : USteamAIBridge.Env :=
  ⟨false, "C/", "P/", fun p => if p = "C/steam-ai.js" then some "PKG" else none⟩

/-- A visualization environment whose engine accepts every script. -/
def dvEnv : UDataVisualizationBridge.Env String :=
  ⟨true, fun _ => "SUCCESS", id, id, fun _ => false, fun _ => none, true, "C/"⟩

/-- A visualization environment without V8. -/
def dvEnvNoV8 : UDataVisualizationBridge.Env String :=
  ⟨false, fun _ => "", id, id, fun _ => false, fun _ => none, false, "C/"⟩

/-- An uninitialized visualization bridge. -/
def dvUninit : UDataVisualizationBridge.State String :=
  ⟨false, "", 0, false, true, 1 / 10, 0, false, 0, [], [], [], false⟩

/-- An initialized visualization bridge with a valid context. -/
def dvInit : UDataVisualizationBridge.State String :=
  { dvUninit with bIsInitialized := true, JavaScriptContextValid := true }

/-- An initialized visualization bridge with three pending updates over two
charts. -/
def dvPending : UDataVisualizationBridge.State String :=
  { dvInit with
      PendingUpdates :=
        [⟨("c1"), ("updateSingleData"), ("D1"), 0⟩,
         ⟨("c2"), ("updateMultiData"), ("D2"), 1⟩,
         ⟨("c1"), ("updateArrayData"), ("D3"), 2⟩] }

/-! ### Lemmas: decimal digits, formatting, span -/

theorem charVal_digitChar {d : ℕ} (h : d < 10) : charVal (Nat.digitChar d) = d := by
  interval_cases d <;> rfl

theorem isDigitChar_digitChar {d : ℕ} (h : d < 10) : isDigitChar (Nat.digitChar d) = true := by
  interval_cases d <;> rfl

theorem natDigitsBE_digits {n : ℕ} : ∀ c ∈ natDigitsBE n, isDigitChar c = true := by
  intro c hc
  unfold natDigitsBE at hc
  by_cases h : n = 0
  · simp [h] at hc
    subst hc
    rfl
  · simp [h] at hc
    obtain ⟨d, hd, rfl⟩ := hc
    exact isDigitChar_digitChar (Nat.digits_lt_base (by norm_num) hd)

theorem natDigitsBE_shape (n : ℕ) :
    ∃ d cs, d < 10 ∧ natDigitsBE n = Nat.digitChar d :: cs := by
  unfold natDigitsBE
  by_cases h : n = 0
  · exact ⟨0, [], by norm_num, by simp [h]; rfl⟩
  · have hd : Nat.digits 10 n ≠ [] := Nat.digits_ne_nil_iff_ne_zero.mpr h
    cases hrev : (Nat.digits 10 n).reverse with
    | nil =>
      exact absurd (by simpa using congrArg List.reverse hrev) hd
    | cons d0 rest =>
      refine ⟨d0, rest.map Nat.digitChar, ?_, by simp [h, hrev]⟩
      have hmem : d0 ∈ Nat.digits 10 n := by
        have : d0 ∈ (Nat.digits 10 n).reverse := by rw [hrev]; simp
        simpa using this
      exact Nat.digits_lt_base (by norm_num) hmem

theorem foldl_digits_map (L : List ℕ) (acc : ℕ) (h : ∀ d ∈ L, d < 10) :
    List.foldl (fun a c => a * 10 + charVal c) acc (L.map Nat.digitChar) =
      List.foldl (fun a d => a * 10 + d) acc L := by
  induction L generalizing acc with
  | nil => rfl
  | cons d L ih =>
    simp only [List.map_cons, List.foldl_cons]
    rw [charVal_digitChar (h d (by simp))]
    exact ih _ (fun x hx => h x (by simp [hx]))

theorem foldl_base10 (L : List ℕ) (acc : ℕ) :
    List.foldl (fun a d => a * 10 + d) acc L =
      acc * 10 ^ L.length + Nat.ofDigits 10 L.reverse := by
  induction L generalizing acc with
  | nil => simp
  | cons d L ih =>
    simp only [List.foldl_cons, List.reverse_cons, List.length_cons]
    rw [ih, Nat.ofDigits_append]
    simp [Nat.ofDigits, pow_succ]
    ring

theorem digitsToNat_natDigitsBE (n : ℕ) : digitsToNat (natDigitsBE n) = n := by
  unfold digitsToNat natDigitsBE
  by_cases h : n = 0
  · simp [h]
    rfl
  · rw [if_neg h,
      foldl_digits_map _ _ (fun d hd => Nat.digits_lt_base (by norm_num) (by simpa using hd)),
      foldl_base10]
    simp [Nat.ofDigits_digits]

theorem length_padDigits (k r : ℕ) : (padDigits k r).length = k := by
  induction k generalizing r with
  | zero => rfl
  | succ k ih => simp [padDigits, ih]

theorem padDigits_digits (k r : ℕ) : ∀ c ∈ padDigits k r, isDigitChar c = true := by
  induction k generalizing r with
  | zero => simp [padDigits]
  | succ k ih =>
    intro c hc
    simp only [padDigits, List.mem_append, List.mem_singleton] at hc
    rcases hc with hc | rfl
    · exact ih _ c hc
    · exact isDigitChar_digitChar (Nat.mod_lt _ (by norm_num))

theorem padDigits_foldl (k : ℕ) : ∀ r acc : ℕ, r < 10 ^ k →
    List.foldl (fun a c => a * 10 + charVal c) acc (padDigits k r) = acc * 10 ^ k + r := by
  induction k with
  | zero =>
    intro r acc h
    interval_cases r
    simp [padDigits]
  | succ k ih =>
    intro r acc h
    simp only [padDigits, List.foldl_append, List.foldl_cons, List.foldl_nil]
    rw [ih (r / 10) acc ((Nat.div_lt_iff_lt_mul (by norm_num)).2 (by rw [← pow_succ]; exact h))]
    rw [charVal_digitChar (Nat.mod_lt _ (by norm_num))]
    rw [pow_succ, Nat.add_mul, Nat.mul_assoc, Nat.add_assoc]
    congr 1
    omega

theorem digitsToNat_padDigits (k r : ℕ) (h : r < 10 ^ k) :
    digitsToNat (padDigits k r) = r := by
  unfold digitsToNat
  rw [padDigits_foldl k r 0 h]
  simp

theorem spanDigits_append (A : List Char) (b : Char) (B : List Char)
    (hA : ∀ c ∈ A, isDigitChar c = true) (hb : isDigitChar b = false) :
    spanDigits (A ++ b :: B) = (A, b :: B) := by
  induction A with
  | nil => simp [spanDigits, hb]
  | cons c A ih =>
    simp only [List.cons_append, spanDigits]
    rw [hA c (by simp)]
    simp [ih (fun x hx => hA x (by simp [hx]))]

theorem digitChar_facts {d : ℕ} (h : d < 10) :
    isWsChar (Nat.digitChar d) = false ∧ Nat.digitChar d ≠ lbrace ∧ Nat.digitChar d ≠ '[' ∧
      Nat.digitChar d ≠ dquote ∧ Nat.digitChar d ≠ 't' ∧ Nat.digitChar d ≠ 'f' ∧
      Nat.digitChar d ≠ 'n' ∧ Nat.digitChar d ≠ '-' := by
  interval_cases d <;> exact (by decide)

theorem minus_facts :
    isWsChar '-' = false ∧ ('-' : Char) ≠ lbrace ∧ ('-' : Char) ≠ '[' ∧
      ('-' : Char) ≠ dquote ∧ ('-' : Char) ≠ 't' ∧ ('-' : Char) ≠ 'f' ∧
      ('-' : Char) ≠ 'n' := by
  refine ⟨by decide, by decide, by decide, by decide, by decide, by decide, by decide⟩

theorem split_div_pow (m : ℕ) :
    ((m / 10 ^ 2 : ℕ) : ℚ) + ((m % 10 ^ 2 : ℕ) : ℚ) / (10 : ℚ) ^ 2 = (m : ℚ) / (10 : ℚ) ^ 2 := by
  have h : ((10 : ℚ) ^ 2) * ((m / 10 ^ 2 : ℕ) : ℚ) + ((m % 10 ^ 2 : ℕ) : ℚ) = (m : ℚ) := by
    exact_mod_cast Nat.div_add_mod m (10 ^ 2)
  field_simp
  linarith

theorem parseNumber_signed (neg : Bool) (m : ℕ) (b : Char) (tl : List Char)
    (hb : isDigitChar b = false) (he : b ≠ 'e') (hE : b ≠ 'E') :
    parseNumber ((if neg then ['-'] else []) ++
        (natDigitsBE (m / 10 ^ 2) ++ '.' :: (padDigits 2 (m % 10 ^ 2) ++ b :: tl))) =
      some ((if neg then -((m : ℚ) / (10 : ℚ) ^ 2) else (m : ℚ) / (10 : ℚ) ^ 2), b :: tl) := by
  obtain ⟨d0, ds, hd0, hshape⟩ := natDigitsBE_shape (m / 10 ^ 2)
  have hr : m % 10 ^ 2 < 10 ^ 2 := Nat.mod_lt _ (by norm_num)
  have hspan1 : spanDigits (natDigitsBE (m / 10 ^ 2) ++ '.' :: (padDigits 2 (m % 10 ^ 2) ++ b :: tl)) =
      (natDigitsBE (m / 10 ^ 2), '.' :: (padDigits 2 (m % 10 ^ 2) ++ b :: tl)) :=
    spanDigits_append _ _ _ natDigitsBE_digits (by decide)
  have hspan2 : spanDigits (padDigits 2 (m % 10 ^ 2) ++ b :: tl) =
      (padDigits 2 (m % 10 ^ 2), b :: tl) :=
    spanDigits_append _ _ _ (padDigits_digits 2 _) hb
  have hpadshape : padDigits 2 (m % 10 ^ 2) =
      [Nat.digitChar (m % 10 ^ 2 / 10 % 10), Nat.digitChar (m % 10 ^ 2 % 10)] := by
    simp [padDigits]
  have hdval : digitsToNat [(m % 10 ^ 2 / 10 % 10).digitChar, (m % 10 ^ 2 % 10).digitChar] =
      m % 10 ^ 2 := by
    rw [← hpadshape]
    exact digitsToNat_padDigits 2 _ hr
  have hfrac : parseFrac ('.' :: (padDigits 2 (m % 10 ^ 2) ++ b :: tl)) =
      some (((m % 10 ^ 2 : ℕ) : ℚ) / (10 : ℚ) ^ 2, b :: tl) := by
    unfold parseFrac
    dsimp only
    rw [if_pos rfl, hspan2, hpadshape]
    dsimp only
    rw [hdval]
    norm_num
  have hexp : parseExp (b :: tl) = some ((false, 0), b :: tl) := by
    unfold parseExp
    dsimp only
    rw [if_neg (by simp [he, hE])]
  have hval : ((digitsToNat (natDigitsBE (m / 10 ^ 2)) : ℕ) : ℚ) +
      ((m % 10 ^ 2 : ℕ) : ℚ) / (10 : ℚ) ^ 2 = (m : ℚ) / (10 : ℚ) ^ 2 := by
    rw [digitsToNat_natDigitsBE]
    exact split_div_pow m
  cases neg with
  | false =>
    have hsplit : splitNeg (natDigitsBE (m / 10 ^ 2) ++ '.' :: (padDigits 2 (m % 10 ^ 2) ++ b :: tl)) =
        (false, natDigitsBE (m / 10 ^ 2) ++ '.' :: (padDigits 2 (m % 10 ^ 2) ++ b :: tl)) := by
      rw [hshape]
      simp only [List.cons_append, splitNeg]
      rw [if_neg (digitChar_facts hd0).2.2.2.2.2.2.2]
    simp only [Bool.false_eq_true, if_false, List.nil_append]
    rw [parseNumber]
    rw [hsplit]
    dsimp only
    rw [hspan1, hshape]
    dsimp only
    rw [hfrac]
    dsimp only
    rw [hexp]
    dsimp only
    unfold applyExp
    dsimp only
    rw [← hshape]
    simp only [pow_zero, mul_one, Bool.false_eq_true, if_false, hval]
  | true =>
    have hsplit : splitNeg ('-' :: (natDigitsBE (m / 10 ^ 2) ++ '.' :: (padDigits 2 (m % 10 ^ 2) ++ b :: tl))) =
        (true, natDigitsBE (m / 10 ^ 2) ++ '.' :: (padDigits 2 (m % 10 ^ 2) ++ b :: tl)) := by
      simp [splitNeg]
    simp only [eq_self_iff_true, if_true, List.singleton_append]
    rw [parseNumber]
    rw [hsplit]
    dsimp only
    rw [hspan1, hshape]
    dsimp only
    rw [hfrac]
    dsimp only
    rw [hexp]
    dsimp only
    unfold applyExp
    dsimp only
    rw [← hshape]
    simp only [pow_zero, mul_one, Bool.false_eq_true, if_false, if_true, hval]

theorem fmtFixedChars_append (q : ℚ) (X : List Char) :
    fmtFixedChars 2 q ++ X =
      (if q < 0 then ['-'] else []) ++
        (natDigitsBE (scaledAbs 2 q / 10 ^ 2) ++
          '.' :: (padDigits 2 (scaledAbs 2 q % 10 ^ 2) ++ X)) := by
  unfold fmtFixedChars
  by_cases hq : q < 0 <;> simp [hq, List.append_assoc]

theorem parseNumber_fmt (q : ℚ) (b : Char) (tl : List Char)
    (hb : isDigitChar b = false) (he : b ≠ 'e') (hE : b ≠ 'E') :
    parseNumber (fmtFixedChars 2 q ++ b :: tl) = some (fmtFixedVal 2 q, b :: tl) := by
  rw [fmtFixedChars_append]
  unfold fmtFixedVal
  by_cases hq : q < 0
  · simpa [hq] using parseNumber_signed true (scaledAbs 2 q) b tl hb he hE
  · simpa [hq] using parseNumber_signed false (scaledAbs 2 q) b tl hb he hE

theorem skipWs_cons {c : Char} (cs : List Char) (h : isWsChar c = false) :
    skipWs (c :: cs) = c :: cs := by
  simp [skipWs, h]

theorem parseVal_number (f : ℕ) (c : Char) (tl : List Char) (q : ℚ) (r : List Char)
    (hws : isWsChar c = false) (h1 : c ≠ lbrace) (h2 : c ≠ '[') (h3 : c ≠ dquote)
    (h4 : c ≠ 't') (h5 : c ≠ 'f') (h6 : c ≠ 'n')
    (hp : parseNumber (c :: tl) = some (q, r)) :
    parseVal (f + 1) (c :: tl) = some (JValue.jnum q, r) := by
  rw [parseVal]
  rw [skipWs_cons tl hws]
  dsimp only
  rw [if_neg h1, if_neg h2, if_neg h3, if_neg h4, if_neg h5, if_neg h6, hp]

theorem parseStrAux_key (nm : Char) (rest : List Char) (h1 : nm ≠ dquote) (h2 : nm ≠ bslash) :
    parseStrAux (nm :: dquote :: rest) = some ([nm], rest) := by
  rw [parseStrAux.eq_def]
  dsimp only
  rw [if_neg h1, if_neg h2]
  rw [parseStrAux.eq_def]
  dsimp only
  rw [if_pos rfl]
  rfl

theorem parseVal_fmt (f : ℕ) (q : ℚ) (b : Char) (tl : List Char)
    (hb : isDigitChar b = false) (_hws : isWsChar b = true → False)
    (he : b ≠ 'e') (hE : b ≠ 'E') :
    parseVal (f + 1) (fmtFixedChars 2 q ++ b :: tl) =
      some (JValue.jnum (fmtFixedVal 2 q), b :: tl) := by
  have hp := parseNumber_fmt q b tl hb he hE
  rw [fmtFixedChars_append] at hp ⊢
  by_cases hq : q < 0
  · rw [if_pos hq] at hp ⊢
    rw [List.singleton_append] at hp ⊢
    exact parseVal_number f '-' _ _ _ minus_facts.1 minus_facts.2.1 minus_facts.2.2.1
      minus_facts.2.2.2.1 minus_facts.2.2.2.2.1 minus_facts.2.2.2.2.2.1
      minus_facts.2.2.2.2.2.2 hp
  · obtain ⟨d0, ds, hd0, hshape⟩ := natDigitsBE_shape (scaledAbs 2 q / 10 ^ 2)
    rw [if_neg hq] at hp ⊢
    rw [List.nil_append, hshape, List.cons_append] at hp ⊢
    exact parseVal_number f _ _ _ _ (digitChar_facts hd0).1 (digitChar_facts hd0).2.1
      (digitChar_facts hd0).2.2.1 (digitChar_facts hd0).2.2.2.1 (digitChar_facts hd0).2.2.2.2.1
      (digitChar_facts hd0).2.2.2.2.2.1 (digitChar_facts hd0).2.2.2.2.2.2.1 hp

theorem parseObjBody_member_comma (f : ℕ) (nm : Char) (q : ℚ) (rest : List Char)
    (h1 : nm ≠ dquote) (h2 : nm ≠ bslash) :
    parseObjBody (f + 1 + 1) (dquote :: nm :: dquote :: ':' :: (fmtFixedChars 2 q ++ ',' :: rest)) =
      (match parseObjBody (f + 1) (skipWs rest) with
       | some (JValue.jobj fields, r5) =>
         some (JValue.jobj ((String.mk [nm], JValue.jnum (fmtFixedVal 2 q)) :: fields), r5)
       | _ => none) := by
  rw [parseObjBody]
  rw [if_neg (by decide : ¬(dquote = rbrace)), if_pos rfl]
  rw [parseStrAux_key nm _ h1 h2]
  dsimp only
  rw [skipWs_cons _ (by decide)]
  dsimp only
  rw [if_pos rfl]
  rw [parseVal_fmt f q ',' rest (by decide) (by decide) (by decide) (by decide)]
  dsimp only
  rw [skipWs_cons _ (by decide)]
  dsimp only
  rw [if_pos rfl]

theorem parseObjBody_member_last (f : ℕ) (nm : Char) (q : ℚ)
    (h1 : nm ≠ dquote) (h2 : nm ≠ bslash) :
    parseObjBody (f + 1 + 1) (dquote :: nm :: dquote :: ':' :: (fmtFixedChars 2 q ++ [rbrace])) =
      some (JValue.jobj [(String.mk [nm], JValue.jnum (fmtFixedVal 2 q))], []) := by
  rw [parseObjBody]
  rw [if_neg (by decide : ¬(dquote = rbrace)), if_pos rfl]
  rw [parseStrAux_key nm _ h1 h2]
  dsimp only
  rw [skipWs_cons _ (by decide)]
  dsimp only
  rw [if_pos rfl]
  rw [parseVal_fmt f q rbrace [] (by decide) (by decide) (by decide) (by decide)]
  dsimp only
  rw [skipWs_cons _ (by decide)]
  dsimp only
  rw [if_neg (by decide : ¬(rbrace = ',')), if_pos rfl]

theorem parseVal_vecObj (g : ℕ) (v : Vec3) :
    parseVal (g + 1 + 1 + 1 + 1 + 1) (USteamAIBridge.VectorToJSONChars v) =
      some (JValue.jobj
        [(String.mk ['x'], JValue.jnum (fmtFixedVal 2 v.x)),
         (String.mk ['y'], JValue.jnum (fmtFixedVal 2 v.y)),
         (String.mk ['z'], JValue.jnum (fmtFixedVal 2 v.z))], []) := by
  unfold USteamAIBridge.VectorToJSONChars USteamAIBridge.fieldChars
  simp only [List.cons_append, List.append_assoc]
  rw [parseVal]
  rw [skipWs_cons _ (by decide)]
  dsimp only
  rw [if_pos rfl]
  rw [skipWs_cons _ (by decide)]
  rw [parseObjBody_member_comma (g + 1 + 1) 'x' v.x _ (by decide) (by decide)]
  rw [skipWs_cons _ (by decide)]
  rw [parseObjBody_member_comma (g + 1) 'y' v.y _ (by decide) (by decide)]
  rw [skipWs_cons _ (by decide)]
  rw [parseObjBody_member_last g 'z' v.z (by decide) (by decide)]

theorem scaledAbs_exact (k : ℤ) : scaledAbs 2 ((k : ℚ) / 100) = k.natAbs := by
  unfold scaledAbs
  have h1 : |(k : ℚ) / 100| * (10 : ℚ) ^ 2 = ((|k| : ℤ) : ℚ) := by
    rw [abs_div, Int.cast_abs]
    norm_num
  rw [h1, Int.floor_int_add]
  have h2 : ⌊(1 : ℚ) / 2⌋ = 0 := by norm_num
  rw [h2, add_zero, Int.abs_eq_natAbs, Int.toNat_natCast]

theorem fmtFixedVal_exact (k : ℤ) : fmtFixedVal 2 ((k : ℚ) / 100) = (k : ℚ) / 100 := by
  unfold fmtFixedVal
  rw [scaledAbs_exact]
  by_cases hk : (k : ℚ) / 100 < 0
  · rw [if_pos hk]
    have hkneg : (k : ℚ) < 0 := by
      by_contra h
      push_neg at h
      have : (0 : ℚ) ≤ (k : ℚ) / 100 := div_nonneg h (by norm_num)
      linarith
    rw [Int.cast_natAbs, Int.cast_abs, abs_of_neg hkneg]
    ring
  · rw [if_neg hk]
    have hknn : (0 : ℚ) ≤ (k : ℚ) := by
      by_contra h
      push_neg at h
      have : (k : ℚ) / 100 < 0 := div_neg_of_neg_of_pos h (by norm_num)
      exact hk this
    rw [Int.cast_natAbs, Int.cast_abs, abs_of_nonneg hknn]
    norm_num

theorem JSONToVector_VectorToJSON (v : Vec3) :
    USteamAIBridge.JSONToVector (USteamAIBridge.VectorToJSON v) =
      ⟨fmtFixedVal 2 v.x, fmtFixedVal 2 v.y, fmtFixedVal 2 v.z⟩ := by
  unfold USteamAIBridge.JSONToVector deserializeObject deserializeJson USteamAIBridge.VectorToJSON
  have hfuel : parseVal (2 * (String.mk (USteamAIBridge.VectorToJSONChars v)).length + 8)
      (String.mk (USteamAIBridge.VectorToJSONChars v)).data =
      parseVal ((2 * (USteamAIBridge.VectorToJSONChars v).length + 3) + 1 + 1 + 1 + 1 + 1)
        (USteamAIBridge.VectorToJSONChars v) := rfl
  rw [hfuel, parseVal_vecObj]
  rfl

/-! ### Lemmas: the batch-update grouping loop -/

theorem lookup_isSome_iff {β : Type _} (m : List (String × β)) (k : String) :
    (m.lookup k).isSome = true ↔ k ∈ m.map Prod.fst := by
  induction m with
  | nil => simp [List.lookup]
  | cons p m ih =>
    obtain ⟨k0, v0⟩ := p
    by_cases hk : k = k0
    · simp [List.lookup, hk]
    · simp [List.lookup, hk, ih, beq_eq_false_iff_ne.mpr hk]

theorem dedupFirst_congr (xs : List String) : ∀ s1 s2 : List String,
    (∀ a, a ∈ s1 ↔ a ∈ s2) → dedupFirst s1 xs = dedupFirst s2 xs := by
  induction xs with
  | nil => intro s1 s2 _; rfl
  | cons k xs ih =>
    intro s1 s2 h
    simp only [dedupFirst]
    by_cases hk : k ∈ s1
    · rw [if_pos hk, if_pos ((h k).mp hk)]
      exact ih s1 s2 h
    · rw [if_neg hk, if_neg (fun hc => hk ((h k).mpr hc))]
      have h2 : ∀ a, a ∈ k :: s1 ↔ a ∈ k :: s2 := by
        intro a
        simp [h a]
      rw [ih (k :: s1) (k :: s2) h2]

theorem dedupFirst_mem (xs : List String) : ∀ (seen : List String) (a : String),
    a ∈ dedupFirst seen xs ↔ (a ∈ xs ∧ a ∉ seen) := by
  induction xs with
  | nil => simp [dedupFirst]
  | cons k xs ih =>
    intro seen a
    simp only [dedupFirst]
    by_cases hk : k ∈ seen
    · rw [if_pos hk, ih]
      constructor
      · rintro ⟨h1, h2⟩
        exact ⟨by simp [h1], h2⟩
      · rintro ⟨h1, h2⟩
        rcases (by simpa using h1 : a = k ∨ a ∈ xs) with rfl | h1
        · exact absurd hk h2
        · exact ⟨h1, h2⟩
    · rw [if_neg hk]
      simp only [List.mem_cons, ih]
      constructor
      · rintro (rfl | ⟨h1, h2⟩)
        · exact ⟨Or.inl rfl, hk⟩
        · exact ⟨Or.inr h1, fun hc => h2 (by simp [hc])⟩
      · rintro ⟨rfl | h1, h2⟩
        · exact Or.inl rfl
        · by_cases hak : a = k
          · exact Or.inl hak
          · exact Or.inr ⟨h1, by simp [hak, h2]⟩

theorem dedupFirst_nodup_notmem (xs : List String) : ∀ seen : List String,
    (dedupFirst seen xs).Nodup ∧ ∀ a ∈ dedupFirst seen xs, a ∉ seen := by
  induction xs with
  | nil => intro seen; simp [dedupFirst]
  | cons k xs ih =>
    intro seen
    simp only [dedupFirst]
    by_cases hk : k ∈ seen
    · rw [if_pos hk]
      exact ih seen
    · rw [if_neg hk]
      refine ⟨?_, ?_⟩
      · refine List.nodup_cons.mpr ⟨?_, (ih (k :: seen)).1⟩
        intro hc
        exact ((ih (k :: seen)).2 k hc) (by simp)
      · intro a ha
        rcases List.mem_cons.mp ha with rfl | ha
        · exact hk
        · intro hc
          exact ((ih (k :: seen)).2 a ha) (by simp [hc])

namespace UDataVisualizationBridge

theorem addToGroup_lookup (u : FBatchUpdateData) (c : String) :
    ∀ acc : List (String × List FBatchUpdateData),
    (addToGroup acc u).lookup c =
      if c = u.ChartId then
        match acc.lookup c with
        | some l => some (l ++ [u])
        | none => some [u]
      else acc.lookup c := by
  intro acc
  induction acc with
  | nil =>
    by_cases hc : c = u.ChartId
    · simp [addToGroup, List.lookup, hc]
    · simp [addToGroup, List.lookup, hc, beq_eq_false_iff_ne.mpr hc]
  | cons p acc ih =>
    obtain ⟨k, l⟩ := p
    simp only [addToGroup]
    by_cases hk : k = u.ChartId
    · subst hk
      rw [if_pos rfl]
      by_cases hc : c = u.ChartId
      · subst hc
        simp [List.lookup]
      · simp [List.lookup, hc, beq_eq_false_iff_ne.mpr hc]
    · rw [if_neg hk]
      by_cases hck : c = k
      · subst hck
        simp [List.lookup, hk]
      · simp only [List.lookup, beq_eq_false_iff_ne.mpr hck]
        rw [ih]

theorem addToGroup_keys (u : FBatchUpdateData) :
    ∀ acc : List (String × List FBatchUpdateData),
    (addToGroup acc u).map Prod.fst =
      if (acc.lookup u.ChartId).isSome then acc.map Prod.fst
      else acc.map Prod.fst ++ [u.ChartId] := by
  intro acc
  induction acc with
  | nil => simp [addToGroup, List.lookup]
  | cons p acc ih =>
    obtain ⟨k, l⟩ := p
    simp only [addToGroup]
    by_cases hk : k = u.ChartId
    · have hbeq : (u.ChartId == k) = true := beq_iff_eq.mpr hk.symm
      simp [List.lookup, hk, hbeq]
    · have hbeq : (u.ChartId == k) = false := beq_eq_false_iff_ne.mpr (fun h => hk h.symm)
      rw [if_neg hk]
      simp only [List.map_cons, List.lookup, hbeq]
      rw [ih]
      by_cases hs : (acc.lookup u.ChartId).isSome
      · rw [if_pos hs, if_pos hs]
      · rw [if_neg hs, if_neg hs]
        simp

theorem foldl_addToGroup_lookup (c : String) (us : List FBatchUpdateData) :
    ∀ acc : List (String × List FBatchUpdateData),
    (List.foldl addToGroup acc us).lookup c =
      match acc.lookup c with
      | some l => some (l ++ us.filter (fun u => u.ChartId == c))
      | none =>
        if us.filter (fun u => u.ChartId == c) = [] then none
        else some (us.filter (fun u => u.ChartId == c)) := by
  induction us with
  | nil =>
    intro acc
    simp only [List.foldl_nil, List.filter_nil]
    match h : acc.lookup c with
    | some l => simp
    | none => simp
  | cons u us ih =>
    intro acc
    simp only [List.foldl_cons]
    rw [ih (addToGroup acc u)]
    rw [addToGroup_lookup]
    by_cases hc : u.ChartId = c
    · have hcc : c = u.ChartId := hc.symm
      have hfil : (u :: us).filter (fun x => x.ChartId == c) =
          u :: us.filter (fun x => x.ChartId == c) := by
        simp [List.filter, beq_iff_eq.mpr hc]
      rw [hfil, if_pos hcc]
      match h : acc.lookup c with
      | some l => simp
      | none => simp
    · have hfil : (u :: us).filter (fun x => x.ChartId == c) =
          us.filter (fun x => x.ChartId == c) := by
        simp [List.filter, beq_eq_false_iff_ne.mpr hc]
      rw [hfil, if_neg (fun h => hc h.symm)]

theorem foldl_addToGroup_keys (us : List FBatchUpdateData) :
    ∀ acc : List (String × List FBatchUpdateData),
    (List.foldl addToGroup acc us).map Prod.fst =
      acc.map Prod.fst ++ dedupFirst (acc.map Prod.fst) (us.map FBatchUpdateData.ChartId) := by
  induction us with
  | nil => intro acc; simp [dedupFirst]
  | cons u us ih =>
    intro acc
    simp only [List.foldl_cons, List.map_cons, dedupFirst]
    rw [ih (addToGroup acc u), addToGroup_keys]
    by_cases hs : (acc.lookup u.ChartId).isSome
    · rw [if_pos hs, if_pos ((lookup_isSome_iff acc u.ChartId).mp hs)]
    · rw [if_neg hs, if_neg (fun hc => hs ((lookup_isSome_iff acc u.ChartId).mpr hc))]
      rw [List.append_assoc, List.singleton_append]
      congr 1
      congr 1
      apply dedupFirst_congr
      intro a
      simp [or_comm]

theorem assoc_eq_keys_lookup {β : Type _} :
    ∀ (m : List (String × β)) (K : List String) (f : String → β),
    m.map Prod.fst = K → K.Nodup → (∀ c ∈ K, m.lookup c = some (f c)) →
    m = K.map (fun c => (c, f c)) := by
  intro m
  induction m with
  | nil =>
    intro K f hK _ _
    rw [← hK]
    rfl
  | cons p m ih =>
    intro K f hK hnd hf
    obtain ⟨k, v⟩ := p
    cases K with
    | nil => simp at hK
    | cons k0 K =>
      have hk : k = k0 := by simpa using congrArg (fun l => l.headI) hK
      subst hk
      have hK' : m.map Prod.fst = K := by simpa using hK
      have hnotmem : k ∉ K := (List.nodup_cons.mp hnd).1
      have hv : v = f k := by
        have := hf k (by simp)
        simpa [List.lookup] using this
      have hf' : ∀ c ∈ K, m.lookup c = some (f c) := by
        intro c hc
        have hck : ¬(c = k) := fun h => hnotmem (h ▸ hc)
        have := hf c (by simp [hc])
        simpa [List.lookup, beq_eq_false_iff_ne.mpr hck] using this
      rw [List.map_cons, ← ih K f hK' (List.nodup_cons.mp hnd).2 hf', hv]

theorem filter_chartId_ne_nil (us : List FBatchUpdateData) (c : String)
    (h : c ∈ us.map FBatchUpdateData.ChartId) :
    us.filter (fun u => u.ChartId == c) ≠ [] := by
  obtain ⟨u, hu, hc⟩ := List.mem_map.mp h
  apply List.ne_nil_of_mem (a := u)
  exact List.mem_filter.mpr ⟨hu, beq_iff_eq.mpr hc⟩

theorem groupUpdates_eq (us : List FBatchUpdateData) :
    groupUpdates us =
      (dedupFirst [] (us.map FBatchUpdateData.ChartId)).map
        (fun c => (c, us.filter (fun u => u.ChartId == c))) := by
  apply assoc_eq_keys_lookup (groupUpdates us)
    (dedupFirst [] (us.map FBatchUpdateData.ChartId))
    (fun c => us.filter (fun u => u.ChartId == c))
  · have := foldl_addToGroup_keys us []
    simpa [groupUpdates] using this
  · exact (dedupFirst_nodup_notmem (us.map FBatchUpdateData.ChartId) []).1
  · intro c hc
    have hmem : c ∈ us.map FBatchUpdateData.ChartId :=
      ((dedupFirst_mem (us.map FBatchUpdateData.ChartId) [] c).mp hc).1
    have := foldl_addToGroup_lookup c us []
    simp only [List.lookup] at this
    rw [groupUpdates, this]
    rw [if_neg (filter_chartId_ne_nil us c hmem)]

end UDataVisualizationBridge

/-! ### Lemmas: maps and state-preservation facts -/

theorem tmapAdd_lookup_self {β : Type _} (m : List (String × β)) (k : String) (v : β) :
    (tmapAdd m k v).lookup k = some v := by
  induction m with
  | nil => simp [tmapAdd, List.lookup]
  | cons p m ih =>
    obtain ⟨k0, v0⟩ := p
    by_cases hk : k0 = k
    · simp [tmapAdd, hk, List.lookup]
    · simp [tmapAdd, hk, List.lookup, beq_eq_false_iff_ne.mpr (fun h => hk h.symm), ih]

namespace USteamAIBridge

theorem recordScriptCall_fields (s : State) (ms0 ms1 : ℚ) :
    (recordScriptCall s ms0 ms1).bIsInitialized = s.bIsInitialized ∧
    (recordScriptCall s ms0 ms1).Config = s.Config ∧
    (recordScriptCall s ms0 ms1).LastGCTime = s.LastGCTime := by
  unfold recordScriptCall
  by_cases h : s.Config.bEnablePerformanceMonitoring <;> simp [h]

theorem executeScript_fields (withV8 : Bool) (s : State) (script : String) (ms0 ms1 : ℚ) :
    (ExecuteScript withV8 s script ms0 ms1).2.1.bIsInitialized = s.bIsInitialized ∧
    (ExecuteScript withV8 s script ms0 ms1).2.1.Config = s.Config ∧
    (ExecuteScript withV8 s script ms0 ms1).2.1.LastGCTime = s.LastGCTime := by
  unfold ExecuteScript
  by_cases h1 : s.bIsInitialized = false
  · simp [h1]
  · by_cases h2 : usesV8 withV8 s = true <;>
      simp [h1, h2, recordScriptCall_fields]

theorem forceGC_fields (withV8 : Bool) (s : State) (ms0 ms1 now : ℚ) :
    (ForceGarbageCollection withV8 s ms0 ms1 now).1.LastGCTime = now ∧
    (ForceGarbageCollection withV8 s ms0 ms1 now).1.Config = s.Config := by
  unfold ForceGarbageCollection
  exact ⟨rfl, (executeScript_fields withV8 s _ ms0 ms1).2.1⟩

theorem load_bIsInitialized (env : Env) (s : State) (ms0 ms1 : ℚ) :
    (LoadSteamAIPackage env s ms0 ms1).2.1.bIsInitialized = s.bIsInitialized := by
  unfold LoadSteamAIPackage
  cases hl : (match env.files (env.projectContentDir ++ s.Config.JavaScriptFilePath) with
    | some code => some code
    | none => firstFile env.files (alternativePaths env)) with
  | none => simp [hl]
  | some code => simp [hl, executeScript_fields]

theorem load_fails_uninit (env : Env) (s : State) (ms0 ms1 : ℚ)
    (h : s.bIsInitialized = false) :
    (LoadSteamAIPackage env s ms0 ms1).1 = false := by
  unfold LoadSteamAIPackage
  cases hl : (match env.files (env.projectContentDir ++ s.Config.JavaScriptFilePath) with
    | some code => some code
    | none => firstFile env.files (alternativePaths env)) with
  | none => simp [hl]
  | some code => simp [hl, ExecuteScript, h]

end USteamAIBridge

namespace UDataVisualizationBridge

theorem engineInit_fail {Cfg : Type} (env : Env Cfg) (s : State Cfg)
    (h : (InitializeJavaScriptEngine env s).1 = false) :
    (InitializeJavaScriptEngine env s).2.1 = s := by
  unfold InitializeJavaScriptEngine at h ⊢
  by_cases h1 : env.withV8 = false
  · simp [h1]
  · by_cases h2 : env.engineCreateOk = false
    · simp [h1, h2]
    · simp [h1, h2] at h

theorem engineInit_bIsInitialized {Cfg : Type} (env : Env Cfg) (s : State Cfg) :
    (InitializeJavaScriptEngine env s).2.1.bIsInitialized = s.bIsInitialized := by
  unfold InitializeJavaScriptEngine
  by_cases h1 : env.withV8 = false
  · simp [h1]
  · by_cases h2 : env.engineCreateOk = false <;> simp [h1, h2]

end UDataVisualizationBridge

/-! ### Claim theorems -/

/-- C1 (amended): for every FVector whose components are integer multiples of
0.01, converting it to the textual interchange format and back is the
identity, `JSONToVector (VectorToJSON v) = v`; and for every string that
does not parse as a JSON object, `JSONToVector` returns the zero vector.
(The `%.2f` format rounds every component to the nearest hundredth, so the
round trip is the identity exactly on such vectors.) -/
theorem C1_vector_json_roundtrip :
    (∀ v : Vec3, (∃ a : ℤ, v.x = (a : ℚ) / 100) → (∃ b : ℤ, v.y = (b : ℚ) / 100) →
        (∃ c : ℤ, v.z = (c : ℚ) / 100) →
        USteamAIBridge.JSONToVector (USteamAIBridge.VectorToJSON v) = v)
    ∧ (∀ s : String, deserializeObject s = none →
        USteamAIBridge.JSONToVector s = ⟨0, 0, 0⟩) := by
  constructor
  · rintro ⟨x, y, z⟩ hx hy hz
    obtain ⟨a, ha⟩ := hx
    obtain ⟨b, hb⟩ := hy
    obtain ⟨c, hc⟩ := hz
    rw [JSONToVector_VectorToJSON]
    dsimp only at ha hb hc ⊢
    rw [ha, hb, hc, fmtFixedVal_exact, fmtFixedVal_exact, fmtFixedVal_exact]
  · intro s h
    unfold USteamAIBridge.JSONToVector
    rw [h]

/-- C1 counterexample: the round trip is not the identity on every vector;
at `(0.001, 0, 0)` the `%.2f` format drops the component to `0.00`. -/
theorem C1_roundtrip_counterexample :
    USteamAIBridge.JSONToVector (USteamAIBridge.VectorToJSON ⟨1 / 1000, 0, 0⟩) ≠
      (⟨1 / 1000, 0, 0⟩ : Vec3) := by
  rw [JSONToVector_VectorToJSON]
  intro hEq
  have hx := congrArg Vec3.x hEq
  dsimp only at hx
  have h0 : scaledAbs 2 ((1 : ℚ) / 1000) = 0 := by
    unfold scaledAbs
    rw [show |(1 : ℚ) / 1000| * (10 : ℚ) ^ 2 + 1 / 2 = 3 / 5 by
      rw [abs_of_nonneg (by norm_num)]; norm_num]
    rw [show ⌊(3 / 5 : ℚ)⌋ = 0 by
      rw [Int.floor_eq_zero_iff]; constructor <;> norm_num]
    rfl
  rw [fmtFixedVal, if_neg (by norm_num), h0] at hx
  norm_num at hx

/-- C1 witness at the concrete vector `(3.14, -5, 0)`. -/
theorem C1_roundtrip_witness :
    ((∃ a : ℤ, (Vec3.mk (314 / 100) (-500 / 100) (0 / 100)).x = (a : ℚ) / 100) ∧
     (∃ b : ℤ, (Vec3.mk (314 / 100) (-500 / 100) (0 / 100)).y = (b : ℚ) / 100) ∧
     (∃ c : ℤ, (Vec3.mk (314 / 100) (-500 / 100) (0 / 100)).z = (c : ℚ) / 100)) ∧
    USteamAIBridge.JSONToVector
        (USteamAIBridge.VectorToJSON (Vec3.mk (314 / 100) (-500 / 100) (0 / 100))) =
      Vec3.mk (314 / 100) (-500 / 100) (0 / 100) :=
  ⟨⟨⟨314, by norm_num⟩, ⟨-500, by norm_num⟩, ⟨0, by norm_num⟩⟩,
    C1_vector_json_roundtrip.1 (Vec3.mk (314 / 100) (-500 / 100) (0 / 100))
      ⟨314, by norm_num⟩ ⟨-500, by norm_num⟩ ⟨0, by norm_num⟩⟩

/-- C2: every failing operation logs and returns false or the empty string:
`ExecuteScript` on an uninitialized AI bridge logs an error and returns
false; `ExecuteFunction` on an uninitialized bridge logs an error and
returns the empty string; `ExportChartAsImage` and `ExportChartAsData`
return the empty string when the bridge is uninitialized or the script
result contains `ERROR`. -/
theorem C2_error_logging :
    (∀ (withV8 : Bool) (s : USteamAIBridge.State) (script : String) (ms0 ms1 : ℚ),
        s.bIsInitialized = false →
        USteamAIBridge.ExecuteScript withV8 s script ms0 ms1 =
          (false, s,
            [⟨LogLevel.error, "Attempting to execute script on uninitialized bridge"⟩]))
    ∧ (∀ (withV8 : Bool) (s : USteamAIBridge.State) (fn : String) (ps : List String)
        (ms0 ms1 : ℚ),
        s.bIsInitialized = false →
        USteamAIBridge.ExecuteFunction withV8 s fn ps ms0 ms1 =
          ("", s,
            [⟨LogLevel.error, "Attempting to execute function on uninitialized bridge"⟩]))
    ∧ (∀ (Cfg : Type) (env : UDataVisualizationBridge.Env Cfg)
        (s : UDataVisualizationBridge.State Cfg) (cid fmt : String),
        (s.bIsInitialized = false ∨
          fstrContains
            (UDataVisualizationBridge.ExecuteJavaScript env s
              (UDataVisualizationBridge.exportImageScript cid fmt)) ("ERROR") = true) →
        UDataVisualizationBridge.ExportChartAsImage env s cid fmt = "")
    ∧ (∀ (Cfg : Type) (env : UDataVisualizationBridge.Env Cfg)
        (s : UDataVisualizationBridge.State Cfg) (cid fmt : String),
        (s.bIsInitialized = false ∨
          fstrContains
            (UDataVisualizationBridge.ExecuteJavaScript env s
              (UDataVisualizationBridge.exportDataScript cid fmt)) ("ERROR") = true) →
        UDataVisualizationBridge.ExportChartAsData env s cid fmt = "") := by
  refine ⟨?_, ?_, ?_, ?_⟩
  · intro withV8 s script ms0 ms1 h
    simp [USteamAIBridge.ExecuteScript, h]
  · intro withV8 s fn ps ms0 ms1 h
    simp [USteamAIBridge.ExecuteFunction, h]
  · rintro Cfg env s cid fmt (h | h)
    · simp [UDataVisualizationBridge.ExportChartAsImage, h]
    · by_cases hinit : s.bIsInitialized = false
      · simp [UDataVisualizationBridge.ExportChartAsImage, hinit]
      · simp [UDataVisualizationBridge.ExportChartAsImage, hinit, h]
  · rintro Cfg env s cid fmt (h | h)
    · simp [UDataVisualizationBridge.ExportChartAsData, h]
    · by_cases hinit : s.bIsInitialized = false
      · simp [UDataVisualizationBridge.ExportChartAsData, hinit]
      · simp [UDataVisualizationBridge.ExportChartAsData, hinit, h]

/-- C2 witness on a concrete uninitialized bridge. -/
theorem C2_error_logging_witness :
    (aiUninit.bIsInitialized = false ∧
      USteamAIBridge.ExecuteScript false aiUninit ("x;") 0 0 =
        (false, aiUninit,
          [⟨LogLevel.error, "Attempting to execute script on uninitialized bridge"⟩]))
    ∧ (USteamAIBridge.ExecuteFunction false aiUninit ("f") [] 0 0 =
        ("", aiUninit,
          [⟨LogLevel.error, "Attempting to execute function on uninitialized bridge"⟩]))
    ∧ UDataVisualizationBridge.ExportChartAsImage dvEnv dvUninit ("c") ("png") = ""
    ∧ UDataVisualizationBridge.ExportChartAsData dvEnv dvUninit ("c") ("csv") = "" :=
  ⟨⟨rfl, C2_error_logging.1 false aiUninit ("x;") 0 0 rfl⟩,
    C2_error_logging.2.1 false aiUninit ("f") [] 0 0 rfl,
    C2_error_logging.2.2.1 String dvEnv dvUninit ("c") ("png") (Or.inl rfl),
    C2_error_logging.2.2.2 String dvEnv dvUninit ("c") ("csv") (Or.inl rfl)⟩

/-- C3: if a bound delegate is registered for an agent id and action name
(and not unregistered), `HandleActionCallback` invokes it with the agent and
blackboard data and returns its result; otherwise it logs a warning and
returns false; `RegisterAction` records the delegate where
`HandleActionCallback` looks it up; and the same holds for conditions. -/
theorem C3_callback_registration :
    (∀ (s : USteamAIBridge.State) (aid an ad bd : String)
        (inner : List (String × USteamAIBridge.FActionDelegate)) (f : String → String → Bool),
        s.RegisteredActions.lookup aid = some inner → inner.lookup an = some (some f) →
        USteamAIBridge.HandleActionCallback s aid an ad bd = (f ad bd, []))
    ∧ (∀ (s : USteamAIBridge.State) (aid an ad bd : String),
        (∀ (inner : List (String × USteamAIBridge.FActionDelegate)) (f : String → String → Bool),
          s.RegisteredActions.lookup aid = some inner → inner.lookup an = some (some f) → False) →
        USteamAIBridge.HandleActionCallback s aid an ad bd =
          (false, [⟨LogLevel.warn,
            "No action callback found for agent " ++ aid ++ ", action " ++ an⟩]))
    ∧ (∀ (s : USteamAIBridge.State) (aid an : String) (cb : USteamAIBridge.FActionDelegate),
        ∃ inner, (USteamAIBridge.RegisterAction s aid an cb).1.RegisteredActions.lookup aid =
            some inner ∧ inner.lookup an = some cb)
    ∧ (∀ (s : USteamAIBridge.State) (aid cn ad bd : String)
        (inner : List (String × USteamAIBridge.FConditionDelegate)) (f : String → String → Bool),
        s.RegisteredConditions.lookup aid = some inner → inner.lookup cn = some (some f) →
        USteamAIBridge.HandleConditionCallback s aid cn ad bd = (f ad bd, []))
    ∧ (∀ (s : USteamAIBridge.State) (aid cn ad bd : String),
        (∀ (inner : List (String × USteamAIBridge.FConditionDelegate)) (f : String → String → Bool),
          s.RegisteredConditions.lookup aid = some inner → inner.lookup cn = some (some f) → False) →
        USteamAIBridge.HandleConditionCallback s aid cn ad bd =
          (false, [⟨LogLevel.warn,
            "No condition callback found for agent " ++ aid ++ ", condition " ++ cn⟩]))
    ∧ (∀ (s : USteamAIBridge.State) (aid cn : String) (cb : USteamAIBridge.FConditionDelegate),
        ∃ inner, (USteamAIBridge.RegisterCondition s aid cn cb).1.RegisteredConditions.lookup aid =
            some inner ∧ inner.lookup cn = some cb) := by
  refine ⟨?_, ?_, ?_, ?_, ?_, ?_⟩
  · intro s aid an ad bd inner f h1 h2
    unfold USteamAIBridge.HandleActionCallback
    rw [h1]
    dsimp only
    rw [h2]
  · intro s aid an ad bd h
    unfold USteamAIBridge.HandleActionCallback
    cases h1 : s.RegisteredActions.lookup aid with
    | none => rfl
    | some inner =>
      dsimp only
      cases h2 : inner.lookup an with
      | none => rfl
      | some cb =>
        dsimp only
        cases cb with
        | none => rfl
        | some f => exact (h inner f h1 h2).elim
  · intro s aid an cb
    unfold USteamAIBridge.RegisterAction
    exact ⟨_, tmapAdd_lookup_self _ _ _, tmapAdd_lookup_self _ _ _⟩
  · intro s aid cn ad bd inner f h1 h2
    unfold USteamAIBridge.HandleConditionCallback
    rw [h1]
    dsimp only
    rw [h2]
  · intro s aid cn ad bd h
    unfold USteamAIBridge.HandleConditionCallback
    cases h1 : s.RegisteredConditions.lookup aid with
    | none => rfl
    | some inner =>
      dsimp only
      cases h2 : inner.lookup cn with
      | none => rfl
      | some cb =>
        dsimp only
        cases cb with
        | none => rfl
        | some f => exact (h inner f h1 h2).elim
  · intro s aid cn cb
    unfold USteamAIBridge.RegisterCondition
    exact ⟨_, tmapAdd_lookup_self _ _ _, tmapAdd_lookup_self _ _ _⟩

/-- C3 witness on a concrete registered action. -/
theorem C3_callback_witness :
    aiRegistered.RegisteredActions.lookup ("a") =
        some [(("act"), some (fun _ _ => true))] ∧
    ([(("act"), some (fun _ _ => true))] :
        List (String × USteamAIBridge.FActionDelegate)).lookup ("act") =
        some (some (fun _ _ => true)) ∧
    USteamAIBridge.HandleActionCallback aiRegistered ("a") ("act") ("ad") ("bd") =
      ((fun _ _ => true) ("ad") ("bd"), []) :=
  ⟨rfl, rfl,
    C3_callback_registration.1 aiRegistered ("a") ("act") ("ad") ("bd")
      [(("act"), some (fun _ _ => true))] (fun _ _ => true) rfl rfl⟩

/-- C4: for every package file whose contents load successfully,
`LoadSteamAIPackage` passes to `ExecuteScript` exactly the file's contents
embedded in the module shim (`wrapModuleShim`: an immediately-invoked
function defining `module`, `exports`, `global`, `window`, splicing the
package code unchanged, and assigning `module.exports` to `window.SteamAI`);
it returns false when no file is found at the configured path or any of the
three alternative paths. -/
theorem C4_module_shim :
    (∀ (env : USteamAIBridge.Env) (s : USteamAIBridge.State) (ms0 ms1 : ℚ),
        env.files (env.projectContentDir ++ s.Config.JavaScriptFilePath) = none →
        (∀ p ∈ USteamAIBridge.alternativePaths env, env.files p = none) →
        USteamAIBridge.LoadSteamAIPackage env s ms0 ms1 =
          (false, s,
            [⟨LogLevel.error, "Steam AI package file not found at: " ++
              (env.projectContentDir ++ s.Config.JavaScriptFilePath)⟩], none))
    ∧ (∀ (env : USteamAIBridge.Env) (s : USteamAIBridge.State) (ms0 ms1 : ℚ) (code : String),
        env.files (env.projectContentDir ++ s.Config.JavaScriptFilePath) = some code →
        (USteamAIBridge.LoadSteamAIPackage env s ms0 ms1).2.2.2 =
          some (USteamAIBridge.wrapModuleShim code))
    ∧ (∀ (env : USteamAIBridge.Env) (s : USteamAIBridge.State) (ms0 ms1 : ℚ) (code : String),
        env.files (env.projectContentDir ++ s.Config.JavaScriptFilePath) = none →
        USteamAIBridge.firstFile env.files (USteamAIBridge.alternativePaths env) = some code →
        (USteamAIBridge.LoadSteamAIPackage env s ms0 ms1).2.2.2 =
          some (USteamAIBridge.wrapModuleShim code)) := by
  refine ⟨?_, ?_, ?_⟩
  · intro env s ms0 ms1 hp halt
    have h1 : env.files (env.projectContentDir ++ "JavaScript/steam-ai.js") = none :=
      halt _ (by simp [USteamAIBridge.alternativePaths])
    have h2 : env.files (env.projectContentDir ++ "Scripts/steam-ai.js") = none :=
      halt _ (by simp [USteamAIBridge.alternativePaths])
    have h3 : env.files (env.projectDir ++ "steam-ai.js") = none :=
      halt _ (by simp [USteamAIBridge.alternativePaths])
    unfold USteamAIBridge.LoadSteamAIPackage
    dsimp only
    rw [hp]
    simp [USteamAIBridge.firstFile, USteamAIBridge.alternativePaths, h1, h2, h3]
  · intro env s ms0 ms1 code hp
    unfold USteamAIBridge.LoadSteamAIPackage
    dsimp only
    rw [hp]
  · intro env s ms0 ms1 code hp hf
    unfold USteamAIBridge.LoadSteamAIPackage
    dsimp only
    rw [hp]
    dsimp only
    rw [hf]

/-- C4 witness: no file anywhere gives false, and a file at the configured
path gives the shim-wrapped code. -/
theorem C4_module_shim_witness :
    (aiEnvNoFiles.files (aiEnvNoFiles.projectContentDir ++ aiUninit.Config.JavaScriptFilePath) =
        none ∧
      USteamAIBridge.LoadSteamAIPackage aiEnvNoFiles aiUninit 0 0 =
        (false, aiUninit,
          [⟨LogLevel.error, "Steam AI package file not found at: " ++
            (aiEnvNoFiles.projectContentDir ++ aiUninit.Config.JavaScriptFilePath)⟩], none))
    ∧ (aiEnvWithFile.files
          (aiEnvWithFile.projectContentDir ++ aiUninit.Config.JavaScriptFilePath) =
        some ("PKG") ∧
      (USteamAIBridge.LoadSteamAIPackage aiEnvWithFile aiUninit 0 0).2.2.2 =
        some (USteamAIBridge.wrapModuleShim ("PKG"))) :=
  ⟨⟨rfl, C4_module_shim.1 aiEnvNoFiles aiUninit 0 0 rfl (fun p hp => by
      simp [USteamAIBridge.alternativePaths] at hp
      rcases hp with rfl | rfl | rfl <;> rfl)⟩,
    ⟨by rfl, C4_module_shim.2.1 aiEnvWithFile aiUninit 0 0 ("PKG") (by rfl)⟩⟩

/-- C5: on an initialized bridge with batch updates enabled, `UpdateChart`,
`UpdateChartMultiData`, and `UpdateChartArray` append exactly one entry to
`PendingUpdates` (with methods `updateSingleData`, `updateMultiData`,
`updateArrayData`) and execute no script, leaving all other state unchanged;
with batching disabled they execute the corresponding immediate update
script and leave `PendingUpdates` (and all state) unchanged; on an
uninitialized bridge they change nothing. -/
theorem C5_update_batching :
    ∀ (Cfg : Type) (env : UDataVisualizationBridge.Env Cfg)
      (s : UDataVisualizationBridge.State Cfg) (cid : String) (ts : ℤ) (val : ℚ)
      (dataObj dataArr : Cfg) (now : ℚ),
      (s.bIsInitialized = true → s.bEnableBatchUpdates = true →
        UDataVisualizationBridge.UpdateChart env s cid ts val now =
          ({ s with PendingUpdates := s.PendingUpdates ++
            [⟨cid, "updateSingleData", UDataVisualizationBridge.singleDataPayload ts val, now⟩] },
            [])
        ∧ UDataVisualizationBridge.UpdateChartMultiData env s cid dataObj now =
          ({ s with PendingUpdates := s.PendingUpdates ++
            [⟨cid, "updateMultiData", env.jsonToString dataObj, now⟩] }, [])
        ∧ UDataVisualizationBridge.UpdateChartArray env s cid dataArr now =
          ({ s with PendingUpdates := s.PendingUpdates ++
            [⟨cid, "updateArrayData", env.jsonArrToString dataArr, now⟩] }, []))
      ∧ (s.bIsInitialized = true → s.bEnableBatchUpdates = false →
        UDataVisualizationBridge.UpdateChart env s cid ts val now =
          (s, [UDataVisualizationBridge.updateChartScript cid ts val])
        ∧ UDataVisualizationBridge.UpdateChartMultiData env s cid dataObj now =
          (s, [UDataVisualizationBridge.updateChartMultiScript cid (env.jsonToString dataObj)])
        ∧ UDataVisualizationBridge.UpdateChartArray env s cid dataArr now =
          (s, [UDataVisualizationBridge.updateChartArrayScript cid (env.jsonArrToString dataArr)]))
      ∧ (s.bIsInitialized = false →
        UDataVisualizationBridge.UpdateChart env s cid ts val now = (s, [])
        ∧ UDataVisualizationBridge.UpdateChartMultiData env s cid dataObj now = (s, [])
        ∧ UDataVisualizationBridge.UpdateChartArray env s cid dataArr now = (s, [])) := by
  intro Cfg env s cid ts val dataObj dataArr now
  refine ⟨?_, ?_, ?_⟩
  · intro h1 h2
    refine ⟨?_, ?_, ?_⟩ <;>
      simp [UDataVisualizationBridge.UpdateChart, UDataVisualizationBridge.UpdateChartMultiData,
        UDataVisualizationBridge.UpdateChartArray, h1, h2]
  · intro h1 h2
    refine ⟨?_, ?_, ?_⟩ <;>
      simp [UDataVisualizationBridge.UpdateChart, UDataVisualizationBridge.UpdateChartMultiData,
        UDataVisualizationBridge.UpdateChartArray, UDataVisualizationBridge.UpdateChartImmediate,
        UDataVisualizationBridge.UpdateChartMultiDataImmediate,
        UDataVisualizationBridge.UpdateChartArrayDataImmediate, h1, h2]
  · intro h1
    refine ⟨?_, ?_, ?_⟩ <;>
      simp [UDataVisualizationBridge.UpdateChart, UDataVisualizationBridge.UpdateChartMultiData,
        UDataVisualizationBridge.UpdateChartArray, h1]

/-- C5 witness on a concrete initialized, batching bridge. -/
theorem C5_update_batching_witness :
    dvInit.bIsInitialized = true ∧ dvInit.bEnableBatchUpdates = true ∧
    UDataVisualizationBridge.UpdateChart dvEnv dvInit ("c") 7 (1 / 2) 3 =
      ({ dvInit with PendingUpdates := dvInit.PendingUpdates ++
        [⟨("c"), ("updateSingleData"), UDataVisualizationBridge.singleDataPayload 7 (1 / 2), 3⟩] },
        []) :=
  ⟨rfl, rfl,
    ((C5_update_batching String dvEnv dvInit ("c") 7 (1 / 2) ("o") ("a") 3).1 rfl rfl).1⟩

/-- C6: `ProcessBatchedUpdates` does nothing when `PendingUpdates` is empty;
otherwise it emits, for each chart in first-occurrence order, one script
bracketing that chart's pending updates (in enqueue order) between a
`startBatch` call and a `commitBatch` call, and leaves `PendingUpdates`
empty. -/
theorem C6_process_batched :
    ∀ (Cfg : Type) (env : UDataVisualizationBridge.Env Cfg)
      (s : UDataVisualizationBridge.State Cfg),
      (s.PendingUpdates = [] → UDataVisualizationBridge.ProcessBatchedUpdates env s = (s, []))
      ∧ (s.PendingUpdates ≠ [] →
        UDataVisualizationBridge.ProcessBatchedUpdates env s =
          ({ s with PendingUpdates := [] },
            (dedupFirst []
              (s.PendingUpdates.map UDataVisualizationBridge.FBatchUpdateData.ChartId)).map
              (fun c => UDataVisualizationBridge.buildBatchScript c
                (s.PendingUpdates.filter (fun u => u.ChartId == c))))) := by
  intro Cfg env s
  constructor
  · intro h
    simp [UDataVisualizationBridge.ProcessBatchedUpdates, h]
  · intro h
    unfold UDataVisualizationBridge.ProcessBatchedUpdates
    rw [if_neg h]
    dsimp only
    rw [UDataVisualizationBridge.groupUpdates_eq, List.map_map]
    rfl

/-- C6 witness on three pending updates over two charts. -/
theorem C6_process_batched_witness :
    dvPending.PendingUpdates ≠ [] ∧
    UDataVisualizationBridge.ProcessBatchedUpdates dvEnv dvPending =
      ({ dvPending with PendingUpdates := [] },
        (dedupFirst []
          (dvPending.PendingUpdates.map UDataVisualizationBridge.FBatchUpdateData.ChartId)).map
          (fun c => UDataVisualizationBridge.buildBatchScript c
            (dvPending.PendingUpdates.filter (fun u => u.ChartId == c)))) :=
  ⟨by simp [dvPending], (C6_process_batched String dvEnv dvPending).2 (by simp [dvPending])⟩

/-- C7: on an initialized AI bridge, periodic maintenance forces garbage
collection exactly when the world time minus the last-GC time is at least
`GarbageCollectionInterval`; `ForceGarbageCollection` records the current
world time as the last-GC time, so GC is never forced twice within one
interval; and the visualization `Tick` processes batched updates only when
at least `BatchInterval` seconds have elapsed since the last batch flush. -/
theorem C7_periodic_intervals :
    (∀ (withV8 : Bool) (s : USteamAIBridge.State) (now ms0 ms1 : ℚ),
        (now - s.LastGCTime ≥ s.Config.GarbageCollectionInterval →
          USteamAIBridge.PerformPeriodicMaintenance withV8 s now ms0 ms1 =
            USteamAIBridge.ForceGarbageCollection withV8 s ms0 ms1 now)
        ∧ (¬(now - s.LastGCTime ≥ s.Config.GarbageCollectionInterval) →
          USteamAIBridge.PerformPeriodicMaintenance withV8 s now ms0 ms1 = (s, [])))
    ∧ (∀ (withV8 : Bool) (s : USteamAIBridge.State) (ms0 ms1 now : ℚ),
        (USteamAIBridge.ForceGarbageCollection withV8 s ms0 ms1 now).1.LastGCTime = now)
    ∧ (∀ (withV8 : Bool) (s : USteamAIBridge.State) (now ms0 ms1 now2 ms2 ms3 : ℚ),
        now2 - now < s.Config.GarbageCollectionInterval →
        USteamAIBridge.PerformPeriodicMaintenance withV8
            (USteamAIBridge.ForceGarbageCollection withV8 s ms0 ms1 now).1 now2 ms2 ms3 =
          ((USteamAIBridge.ForceGarbageCollection withV8 s ms0 ms1 now).1, []))
    ∧ (∀ (Cfg : Type) (env : UDataVisualizationBridge.Env Cfg)
        (s : UDataVisualizationBridge.State Cfg) (now : ℚ),
        ¬(now - s.LastBatchTime ≥ s.BatchInterval) →
        UDataVisualizationBridge.Tick env s now = (s, [])) := by
  refine ⟨?_, ?_, ?_, ?_⟩
  · intro withV8 s now ms0 ms1
    constructor
    · intro h
      unfold USteamAIBridge.PerformPeriodicMaintenance
      rw [if_pos h]
    · intro h
      unfold USteamAIBridge.PerformPeriodicMaintenance
      rw [if_neg h]
  · intro withV8 s ms0 ms1 now
    exact (USteamAIBridge.forceGC_fields withV8 s ms0 ms1 now).1
  · intro withV8 s now ms0 ms1 now2 ms2 ms3 hlt
    have h1 := (USteamAIBridge.forceGC_fields withV8 s ms0 ms1 now).1
    have h2 := (USteamAIBridge.forceGC_fields withV8 s ms0 ms1 now).2
    unfold USteamAIBridge.PerformPeriodicMaintenance
    rw [if_neg (by rw [h1, h2]; exact not_le.mpr hlt)]
  · intro Cfg env s now h
    unfold UDataVisualizationBridge.Tick
    rw [if_neg (by simp [h])]

/-- C7 witness: GC fires at 40s with a 30s interval and last GC at 0; an
uninitialized visualization tick at time 0 with interval 0.1 is a no-op. -/
theorem C7_periodic_witness :
    ((40 : ℚ) - aiInit.LastGCTime ≥ aiInit.Config.GarbageCollectionInterval ∧
      USteamAIBridge.PerformPeriodicMaintenance false aiInit 40 0 0 =
        USteamAIBridge.ForceGarbageCollection false aiInit 0 0 40)
    ∧ (¬((0 : ℚ) - dvUninit.LastBatchTime ≥ dvUninit.BatchInterval) ∧
      UDataVisualizationBridge.Tick dvEnv dvUninit 0 = (dvUninit, [])) :=
  ⟨⟨by norm_num [aiInit, aiUninit, cfgAI],
    ((C7_periodic_intervals.1 false aiInit 40 0 0).1
      (by norm_num [aiInit, aiUninit, cfgAI]))⟩,
    ⟨by norm_num [dvUninit], C7_periodic_intervals.2.2.2 String dvEnv dvUninit 0
      (by norm_num [dvUninit])⟩⟩

/-- C8: initialization is idempotent and atomic on failure: `InitializeAI`
on an already-initialized bridge returns true and changes no state; when
loading the package fails it returns false with `bIsInitialized` still
false, `bInitializationInProgress` reset to false, and `OnAIInitialized`
broadcast with false; `InitializeBridge` (UDataVisualizationBridge::Initialize)
returns true immediately when already initialized, and returns false with
`bIsInitialized` still false when engine or package initialization fails. -/
theorem C8_initialization :
    (∀ (env : USteamAIBridge.Env) (s : USteamAIBridge.State) (ms0 ms1 : ℚ),
        s.bIsInitialized = true →
        USteamAIBridge.InitializeAI env s ms0 ms1 = (true, s, [], []))
    ∧ (∀ (env : USteamAIBridge.Env) (s : USteamAIBridge.State) (ms0 ms1 : ℚ),
        s.bIsInitialized = false → s.bInitializationInProgress = false →
        (USteamAIBridge.LoadSteamAIPackage env
            { s with bInitializationInProgress := true } ms0 ms1).1 = false →
        (USteamAIBridge.InitializeAI env s ms0 ms1).1 = false ∧
        (USteamAIBridge.InitializeAI env s ms0 ms1).2.1.bIsInitialized = false ∧
        (USteamAIBridge.InitializeAI env s ms0 ms1).2.1.bInitializationInProgress = false ∧
        (USteamAIBridge.InitializeAI env s ms0 ms1).2.2.2 = [false])
    ∧ (∀ (Cfg : Type) (env : UDataVisualizationBridge.Env Cfg)
        (s : UDataVisualizationBridge.State Cfg),
        s.bIsInitialized = true →
        UDataVisualizationBridge.InitializeBridge env s = (true, s, []))
    ∧ (∀ (Cfg : Type) (env : UDataVisualizationBridge.Env Cfg)
        (s : UDataVisualizationBridge.State Cfg),
        s.bIsInitialized = false →
        ((UDataVisualizationBridge.InitializeJavaScriptEngine env s).1 = false ∨
          (UDataVisualizationBridge.LoadDataVisualizationPackage env
            (UDataVisualizationBridge.InitializeJavaScriptEngine env s).2.1).1 = false) →
        (UDataVisualizationBridge.InitializeBridge env s).1 = false ∧
        (UDataVisualizationBridge.InitializeBridge env s).2.1.bIsInitialized = false) := by
  refine ⟨?_, ?_, ?_, ?_⟩
  · intro env s ms0 ms1 h
    simp [USteamAIBridge.InitializeAI, h]
  · intro env s ms0 ms1 h1 h2 hload
    unfold USteamAIBridge.InitializeAI
    rw [if_neg (by simp [h1, h2])]
    dsimp only
    rw [if_pos hload]
    refine ⟨rfl, ?_, rfl, rfl⟩
    simp [USteamAIBridge.load_bIsInitialized, h1]
  · intro Cfg env s h
    simp [UDataVisualizationBridge.InitializeBridge, h]
  · intro Cfg env s hinit hfail
    unfold UDataVisualizationBridge.InitializeBridge
    rw [if_neg (by simp [hinit])]
    dsimp only
    by_cases he : (UDataVisualizationBridge.InitializeJavaScriptEngine env s).1 = false
    · rw [if_pos he]
      refine ⟨rfl, ?_⟩
      dsimp only
      rw [UDataVisualizationBridge.engineInit_bIsInitialized]
      exact hinit
    · rw [if_neg he]
      rcases hfail with hf | hf
      · exact absurd hf he
      · rw [if_pos hf]
        refine ⟨rfl, ?_⟩
        dsimp only
        rw [UDataVisualizationBridge.engineInit_bIsInitialized]
        exact hinit

/-- C8 witness: idempotence on concrete initialized bridges, and the
failure path on a concrete uninitialized AI bridge with no package file. -/
theorem C8_initialization_witness :
    (aiInit.bIsInitialized = true ∧
      USteamAIBridge.InitializeAI aiEnvNoFiles aiInit 0 0 = (true, aiInit, [], []))
    ∧ (aiUninit.bIsInitialized = false ∧ aiUninit.bInitializationInProgress = false ∧
      (USteamAIBridge.LoadSteamAIPackage aiEnvNoFiles
          { aiUninit with bInitializationInProgress := true } 0 0).1 = false ∧
      (USteamAIBridge.InitializeAI aiEnvNoFiles aiUninit 0 0).1 = false ∧
      (USteamAIBridge.InitializeAI aiEnvNoFiles aiUninit 0 0).2.1.bIsInitialized = false)
    ∧ (dvInit.bIsInitialized = true ∧
      UDataVisualizationBridge.InitializeBridge dvEnvNoV8 dvInit = (true, dvInit, [])) :=
  ⟨⟨rfl, C8_initialization.1 aiEnvNoFiles aiInit 0 0 rfl⟩,
    ⟨rfl, rfl, USteamAIBridge.load_fails_uninit aiEnvNoFiles _ 0 0 rfl,
      (C8_initialization.2.1 aiEnvNoFiles aiUninit 0 0 rfl rfl
        (USteamAIBridge.load_fails_uninit aiEnvNoFiles _ 0 0 rfl)).1,
      (C8_initialization.2.1 aiEnvNoFiles aiUninit 0 0 rfl rfl
        (USteamAIBridge.load_fails_uninit aiEnvNoFiles _ 0 0 rfl)).2.1⟩,
    ⟨rfl, C8_initialization.2.2.1 String dvEnvNoV8 dvInit rfl⟩⟩

/-- The empty result of the fallback engine never contains `true`. -/
theorem fstrContains_empty_true : fstrContains "" ("true") = false := by decide

/-- C9: the fallback engine accepts every script (`ExecuteFallbackScript`
returns true) and returns the empty string from every function call
(`ExecuteFallbackFunction`); consequently, on an initialized bridge whose
dispatch does not take the V8 path, `CreateAgent`, `CreateBehaviorTree`,
and `SetAgentMemory` return false for every input, since the empty result
never contains `true`. -/
theorem C9_fallback_engine :
    (∀ (cfg : USteamAIBridge.FSteamAIConfig) (script : String),
        (USteamAIBridge.ExecuteFallbackScript cfg script).1 = true)
    ∧ (∀ (cfg : USteamAIBridge.FSteamAIConfig) (fn : String) (ps : List String),
        (USteamAIBridge.ExecuteFallbackFunction cfg fn ps).1 = "")
    ∧ (∀ (withV8 : Bool) (s : USteamAIBridge.State) (aid acfg : String) (ms0 ms1 : ℚ),
        s.bIsInitialized = true → USteamAIBridge.usesV8 withV8 s = false →
        (USteamAIBridge.CreateAgent withV8 s aid acfg ms0 ms1).1 = false)
    ∧ (∀ (withV8 : Bool) (s : USteamAIBridge.State) (tid tcfg : String) (ms0 ms1 : ℚ),
        s.bIsInitialized = true → USteamAIBridge.usesV8 withV8 s = false →
        (USteamAIBridge.CreateBehaviorTree withV8 s tid tcfg ms0 ms1).1 = false)
    ∧ (∀ (withV8 : Bool) (s : USteamAIBridge.State) (aid key value : String) (ms0 ms1 : ℚ),
        s.bIsInitialized = true → USteamAIBridge.usesV8 withV8 s = false →
        (USteamAIBridge.SetAgentMemory withV8 s aid key value ms0 ms1).1 = false) := by
  refine ⟨fun _ _ => rfl, fun _ _ _ => rfl, ?_, ?_, ?_⟩
  · intro withV8 s aid acfg ms0 ms1 h1 h2
    simp [USteamAIBridge.CreateAgent, USteamAIBridge.runScriptForBool,
      USteamAIBridge.ExecuteFunction, USteamAIBridge.ExecuteFallbackFunction, h1, h2,
      fstrContains_empty_true]
  · intro withV8 s tid tcfg ms0 ms1 h1 h2
    simp [USteamAIBridge.CreateBehaviorTree, USteamAIBridge.runScriptForBool,
      USteamAIBridge.ExecuteFunction, USteamAIBridge.ExecuteFallbackFunction, h1, h2,
      fstrContains_empty_true]
  · intro withV8 s aid key value ms0 ms1 h1 h2
    simp [USteamAIBridge.SetAgentMemory, USteamAIBridge.runScriptForBool,
      USteamAIBridge.ExecuteFunction, USteamAIBridge.ExecuteFallbackFunction, h1, h2,
      fstrContains_empty_true]

/-- C9 witness on a concrete initialized bridge without V8. -/
theorem C9_fallback_witness :
    aiInit.bIsInitialized = true ∧ USteamAIBridge.usesV8 false aiInit = false ∧
    (USteamAIBridge.CreateAgent false aiInit ("a") ("\x7b\x7d") 0 0).1 = false ∧
    (USteamAIBridge.CreateBehaviorTree false aiInit ("t") ("\x7b\x7d") 0 0).1 = false ∧
    (USteamAIBridge.SetAgentMemory false aiInit ("a") ("k") ("1") 0 0).1 = false :=
  ⟨rfl, rfl,
    C9_fallback_engine.2.2.1 false aiInit ("a") ("\x7b\x7d") 0 0 rfl rfl,
    C9_fallback_engine.2.2.2.1 false aiInit ("t") ("\x7b\x7d") 0 0 rfl rfl,
    C9_fallback_engine.2.2.2.2 false aiInit ("a") ("k") ("1") 0 0 rfl rfl⟩

/-- C10 (amended): every chart-creation method adds `ChartId` to `Charts`
exactly when the bridge is initialized and the creation script's result does
not contain `ERROR`, and otherwise leaves `Charts` unchanged; `RemoveChart`
removes `ChartId` exactly when initialized and its script result does not
contain `ERROR`; `ClearAllCharts`, when initialized and its script result
does not contain `ERROR`, empties `Charts` and `Dashboards` but leaves
`PendingUpdates` untouched (and otherwise changes nothing); `Dispose` leaves
`Charts`, `Dashboards`, and `PendingUpdates` empty. -/
theorem C10_charts_mirror :
    (∀ (Cfg : Type) (env : UDataVisualizationBridge.Env Cfg)
        (s : UDataVisualizationBridge.State Cfg) (method cid : String) (cfg : Cfg),
        (s.bIsInitialized = true →
          fstrContains (UDataVisualizationBridge.ExecuteJavaScript env s
            (UDataVisualizationBridge.createChartScript method cid (env.jsonToString cfg)))
            ("ERROR") = false →
          (UDataVisualizationBridge.CreateChartCommon env s method cid cfg).1 =
            { s with Charts := tmapAdd s.Charts cid cfg })
        ∧ (¬(s.bIsInitialized = true ∧
            fstrContains (UDataVisualizationBridge.ExecuteJavaScript env s
              (UDataVisualizationBridge.createChartScript method cid (env.jsonToString cfg)))
              ("ERROR") = false) →
          (UDataVisualizationBridge.CreateChartCommon env s method cid cfg).1 = s))
    ∧ (∀ (Cfg : Type) (env : UDataVisualizationBridge.Env Cfg)
        (s : UDataVisualizationBridge.State Cfg) (cid : String),
        (s.bIsInitialized = true →
          fstrContains (UDataVisualizationBridge.ExecuteJavaScript env s
            (UDataVisualizationBridge.removeChartScript cid)) ("ERROR") = false →
          (UDataVisualizationBridge.RemoveChart env s cid).1 =
            { s with Charts := tmapRemove s.Charts cid })
        ∧ (¬(s.bIsInitialized = true ∧
            fstrContains (UDataVisualizationBridge.ExecuteJavaScript env s
              (UDataVisualizationBridge.removeChartScript cid)) ("ERROR") = false) →
          (UDataVisualizationBridge.RemoveChart env s cid).1 = s))
    ∧ (∀ (Cfg : Type) (env : UDataVisualizationBridge.Env Cfg)
        (s : UDataVisualizationBridge.State Cfg),
        (s.bIsInitialized = true →
          fstrContains (UDataVisualizationBridge.ExecuteJavaScript env s
            UDataVisualizationBridge.clearAllChartsScript) ("ERROR") = false →
          UDataVisualizationBridge.ClearAllCharts env s =
            ({ s with Charts := [], Dashboards := [] },
              [UDataVisualizationBridge.clearAllChartsScript]))
        ∧ (¬(s.bIsInitialized = true ∧
            fstrContains (UDataVisualizationBridge.ExecuteJavaScript env s
              UDataVisualizationBridge.clearAllChartsScript) ("ERROR") = false) →
          (UDataVisualizationBridge.ClearAllCharts env s).1 = s))
    ∧ (∀ (Cfg : Type) (env : UDataVisualizationBridge.Env Cfg)
        (s : UDataVisualizationBridge.State Cfg),
        (UDataVisualizationBridge.Dispose env s).1.Charts = [] ∧
        (UDataVisualizationBridge.Dispose env s).1.Dashboards = [] ∧
        (UDataVisualizationBridge.Dispose env s).1.PendingUpdates = []) := by
  refine ⟨?_, ?_, ?_, ?_⟩
  · intro Cfg env s method cid cfg
    constructor
    · intro h1 h2
      simp [UDataVisualizationBridge.CreateChartCommon, h1, h2]
    · intro hfail
      by_cases hinit : s.bIsInitialized = true
      · have h2 : fstrContains (UDataVisualizationBridge.ExecuteJavaScript env s
            (UDataVisualizationBridge.createChartScript method cid (env.jsonToString cfg)))
            ("ERROR") = true := by
          rcases Bool.eq_false_or_eq_true (fstrContains _ _) with hc | hc
          · exact hc
          · exact absurd ⟨hinit, hc⟩ hfail
        simp [UDataVisualizationBridge.CreateChartCommon, hinit, h2]
      · have h0 : s.bIsInitialized = false := by
          revert hinit; cases s.bIsInitialized <;> simp
        simp [UDataVisualizationBridge.CreateChartCommon, h0]
  · intro Cfg env s cid
    constructor
    · intro h1 h2
      simp [UDataVisualizationBridge.RemoveChart, h1, h2]
    · intro hfail
      by_cases hinit : s.bIsInitialized = true
      · have h2 : fstrContains (UDataVisualizationBridge.ExecuteJavaScript env s
            (UDataVisualizationBridge.removeChartScript cid)) ("ERROR") = true := by
          rcases Bool.eq_false_or_eq_true (fstrContains _ _) with hc | hc
          · exact hc
          · exact absurd ⟨hinit, hc⟩ hfail
        simp [UDataVisualizationBridge.RemoveChart, hinit, h2]
      · have h0 : s.bIsInitialized = false := by
          revert hinit; cases s.bIsInitialized <;> simp
        simp [UDataVisualizationBridge.RemoveChart, h0]
  · intro Cfg env s
    constructor
    · intro h1 h2
      simp [UDataVisualizationBridge.ClearAllCharts, h1, h2]
    · intro hfail
      by_cases hinit : s.bIsInitialized = true
      · have h2 : fstrContains (UDataVisualizationBridge.ExecuteJavaScript env s
            UDataVisualizationBridge.clearAllChartsScript) ("ERROR") = true := by
          rcases Bool.eq_false_or_eq_true (fstrContains _ _) with hc | hc
          · exact hc
          · exact absurd ⟨hinit, hc⟩ hfail
        simp [UDataVisualizationBridge.ClearAllCharts, hinit, h2]
      · have h0 : s.bIsInitialized = false := by
          revert hinit; cases s.bIsInitialized <;> simp
        simp [UDataVisualizationBridge.ClearAllCharts, h0]
  · intro Cfg env s
    simp [UDataVisualizationBridge.Dispose]

/-- C10 counterexample: `ClearAllCharts` does not leave `PendingUpdates`
empty; on an initialized bridge with three pending updates and a clear
script that succeeds, the pending updates survive the call. -/
theorem C10_clear_counterexample :
    (UDataVisualizationBridge.ClearAllCharts dvEnv dvPending).1.PendingUpdates ≠ [] := by
  decide

/-- C10 witness: a concrete successful chart creation records the chart. -/
theorem C10_charts_witness :
    dvInit.bIsInitialized = true ∧
    fstrContains (UDataVisualizationBridge.ExecuteJavaScript dvEnv dvInit
      (UDataVisualizationBridge.createChartScript ("createLineChart") ("c")
        (dvEnv.jsonToString ("CFG")))) ("ERROR") = false ∧
    (UDataVisualizationBridge.CreateChartCommon dvEnv dvInit ("createLineChart") ("c")
        ("CFG")).1 =
      { dvInit with Charts := tmapAdd dvInit.Charts ("c") ("CFG") } :=
  ⟨rfl, by decide,
    (C10_charts_mirror.1 String dvEnv dvInit ("createLineChart") ("c") ("CFG")).1 rfl
      (by decide)⟩
